import Mathlib

/-!
Verification development for the kenshin (health-checkup) ingestion pipeline.

The Python sources under `scripts/kenshin_list_pydir` are shallowly embedded:
pure fragments become Lean functions over `List Char` strings and explicit
record states; SQL tables become lists of record rows; upserts become pure
state transformers.  Definitions named after the Python functions are direct
transcriptions of the source; definitions prefixed with `spec_` restate the
natural-language specification and are compared against the transcribed code.
-/

namespace Kenshin

/-! ## Python string primitives (over `List Char`) -/

/-- Whitespace characters stripped by Python `str.strip()` (ASCII subset;
all inputs of interest are ASCII or Japanese text with no exotic spaces). -/
def wsChar (c : Char) : Bool :=
  c = ' ' || c = '\t' || c = '\n' || c = '\r' || c = '\x0b' || c = '\x0c'

/-- `str.strip()` on a character list. -/
def stripL (cs : List Char) : List Char :=
  ((cs.dropWhile wsChar).reverse.dropWhile wsChar).reverse

/-- `str.strip()`. -/
def pyStrip (s : String) : String := ⟨stripL s.data⟩

/-- ASCII lower-casing of one character (Python `str.lower()` on ASCII). -/
def asciiLower (c : Char) : Char :=
  if 'A' ≤ c && c ≤ 'Z' then Char.ofNat (c.toNat + 32) else c

/-- ASCII upper-casing of one character (Python `str.upper()` on ASCII). -/
def asciiUpper (c : Char) : Char :=
  if 'a' ≤ c && c ≤ 'z' then Char.ofNat (c.toNat - 32) else c

/-- `str.lower()`. -/
def pyLower (s : String) : String := ⟨s.data.map asciiLower⟩

/-- `str.upper()`. -/
def pyUpper (s : String) : String := ⟨s.data.map asciiUpper⟩

/-- Split a character list on a single separator character, Python
`str.split(sep)` semantics: the empty string yields `[""]`. -/
def splitChar (sep : Char) : List Char → List (List Char)
  | [] => [[]]
  | c :: rest =>
    let r := splitChar sep rest
    if c = sep then [] :: r
    else
      match r with
      | h :: t => (c :: h) :: t
      | [] => [[c]]

/-- `a in b` for strings: `nee` occurs as a contiguous fragment of `hay`. -/
def listHasSub (hay nee : List Char) : Bool :=
  match hay with
  | [] => nee.isEmpty
  | _ :: rest => List.isPrefixOf nee hay || listHasSub rest nee

/-- Substring test on strings (Python `nee in hay`). -/
def strHasSub (hay nee : String) : Bool := listHasSub hay.data nee.data

/-- `cs` ends with `tail` (Python `str.endswith`). -/
def listEndsWith (cs tail : List Char) : Bool :=
  List.isPrefixOf tail.reverse cs.reverse

/-- Python truthiness of an optional string attribute: present and non-empty. -/
def truthy (o : Option String) : Bool :=
  match o with
  | none => false
  | some s => decide (s ≠ "")

/-- Python `a or b` on optional strings (`None` and `""` are falsy). -/
def pyOrOpt (a b : Option String) : Option String :=
  match a with
  | none => b
  | some s => if s = "" then b else some s

/-- Python `s[:n]` truncation. -/
def pyTake (n : Nat) (s : String) : String := ⟨s.data.take n⟩

/-- Keep the first occurrence of each element, drop the rest
(the `seen`-set idiom used throughout the Python sources). -/
def dedupKeepFirst (seen : List String) : List String → List String
  | [] => []
  | x :: rest =>
    if x ∈ seen then dedupKeepFirst seen rest
    else x :: dedupKeepFirst (x :: seen) rest

/-- Stable insertion into a sorted list: `x` goes before the first element
`y` with `lt x y`, hence after all elements it ties with. -/
def insertSorted (lt : α → α → Bool) (x : α) : List α → List α
  | [] => [x]
  | y :: ys => if lt x y then x :: y :: ys else y :: insertSorted lt x ys

/-- Stable sort by a strict comparison (models SQL `ORDER BY` with a
deterministic key and Python `sorted`). -/
def sortByLt (lt : α → α → Bool) (l : List α) : List α :=
  l.foldl (fun acc x => insertSorted lt x acc) []

theorem mem_insertSorted (lt : α → α → Bool) (x a : α) (l : List α) :
    a ∈ insertSorted lt x l ↔ a = x ∨ a ∈ l := by
  induction l with
  | nil => simp [insertSorted]
  | cons y ys ih =>
    simp only [insertSorted]
    split
    · simp
    · simp only [List.mem_cons, ih]
      tauto

theorem length_insertSorted (lt : α → α → Bool) (x : α) (l : List α) :
    (insertSorted lt x l).length = l.length + 1 := by
  induction l with
  | nil => rfl
  | cons y ys ih =>
    simp only [insertSorted]
    split
    · simp
    · simp [ih]

theorem mem_sortByLt (lt : α → α → Bool) (a : α) (l : List α) :
    a ∈ sortByLt lt l ↔ a ∈ l := by
  suffices h : ∀ acc, a ∈ l.foldl (fun acc x => insertSorted lt x acc) acc ↔ a ∈ acc ∨ a ∈ l by
    have := h []
    simpa [sortByLt] using this
  induction l with
  | nil => intro acc; simp
  | cons y ys ih =>
    intro acc
    simp only [List.foldl_cons, ih, mem_insertSorted, List.mem_cons]
    tauto

theorem length_sortByLt (lt : α → α → Bool) (l : List α) :
    (sortByLt lt l).length = l.length := by
  suffices h : ∀ acc, (l.foldl (fun acc x => insertSorted lt x acc) acc).length
      = acc.length + l.length by
    simpa [sortByLt] using h []
  induction l with
  | nil => intro acc; simp
  | cons y ys ih =>
    intro acc
    simp only [List.foldl_cons, ih, length_insertSorted, List.length_cons]
    omega

theorem insertSorted_perm (lt : α → α → Bool) (x : α) (l : List α) :
    List.Perm (insertSorted lt x l) (x :: l) := by
  induction l with
  | nil => exact List.Perm.refl _
  | cons y ys ih =>
    simp only [insertSorted]
    split
    · exact List.Perm.refl _
    · exact (ih.cons y).trans (List.Perm.swap x y ys)

theorem sortByLt_perm (lt : α → α → Bool) (l : List α) : List.Perm (sortByLt lt l) l := by
  suffices h : ∀ acc, List.Perm (l.foldl (fun acc x => insertSorted lt x acc) acc) (acc ++ l) by
    simpa [sortByLt] using h []
  induction l with
  | nil => intro acc; simp
  | cons y ys ih =>
    intro acc
    simp only [List.foldl_cons]
    refine (ih (insertSorted lt y acc)).trans ?_
    refine (((insertSorted_perm lt y acc).append_right ys)).trans ?_
    simpa using List.perm_middle.symm

/-! ## C8 — Shared-Scan allow-list of extensions
(`scripts/medi_shared_files_scan.py`, `parse_allow_exts`). -/

/-- `parse_allow_exts()`: read `MEDI_SHARED_SCAN_EXTS`, else the compat key
`MEDI_SHARED_EXTS`, else the literal default, strip, split on commas, strip
and lower-case each entry, drop blanks, and collect into a set. -/
def parse_allow_exts (scanExts extsCompat : Option String) : Finset String :=
  let exts := pyStrip ((pyOrOpt (pyOrOpt scanExts extsCompat)
    (some "zip,pdf,xlsx,xls,xml")).getD "")
  (((splitChar ',' exts.data).map (fun e => pyStrip ⟨e⟩)).filterMap
    (fun e => if e = "" then none else some (pyLower e))).toFinset

/-- C8 counterexample: with neither environment key configured the allow-list
is not `{zip}` — it also contains `pdf`. -/
theorem c8_default_not_zip_only :
    parse_allow_exts none none ≠ {"zip"} ∧ "pdf" ∈ parse_allow_exts none none := by
  constructor
  · intro h
    have : "pdf" ∈ parse_allow_exts none none := by decide
    rw [h] at this
    simp at this
  · decide

/-- C8 (amended): with no extension list configured in the environment,
Shared-Scan's allow-list defaults to exactly the set zip, pdf, xlsx, xls, xml. -/
theorem c8_default_allow_exts :
    parse_allow_exts none none = {"zip", "pdf", "xlsx", "xls", "xml"} := by
  decide

/-! ## C3 — Stage G CDA-index step
(`kenshin_lib/medi/xml_extract.py`, `_extract_document_id` and the
`CDA_INDEX` logging in `xml_extract_phase`).

lxml attribute access `node.get(name)` returns `None` for an absent
attribute and the (possibly empty) attribute string otherwise, modelled as
`Option String`; Python `if root:` is `truthy`. -/

/-- The `/ClinicalDocument/id` element as seen by `_extract_document_id`:
its three relevant attributes. -/
structure CdaIdNode where
  root : Option String
  extension : Option String
  nullFlavor : Option String
deriving DecidableEq, Repr

/-- `_extract_document_id`: returns `(document_id, result)` with
`result` in OK / SKIP / ERROR.  `none` for the node means the xpath
`/hl7:ClinicalDocument/hl7:id` matched nothing. -/
def extract_document_id (idNode : Option CdaIdNode) : Option String × String :=
  match idNode with
  | none => (none, "ERROR")
  | some n =>
    if truthy n.root then
      (some (if truthy n.extension then
               (n.root.getD "") ++ "|" ++ (n.extension.getD "")
             else n.root.getD ""), "OK")
    else if truthy n.nullFlavor then (none, "SKIP")
    else (none, "SKIP")

/-- The CDA-index step of `xml_extract_phase`: the `(doc_id, cda_result)`
pair is mapped onto the process-log result, with `doc_id` forced to `None`
on SKIP and ERROR; extraction continues afterwards in every case. -/
def cda_index_step (idNode : Option CdaIdNode) : Option String × String :=
  let r := extract_document_id idNode
  match r.2 with
  | "OK" => (r.1, "OK")
  | "SKIP" => (none, "SKIP")
  | _ => (none, "ERROR")

/-- C3 counterexample: an id element carrying neither `root` nor
`nullFlavor` logs SKIP, not ERROR as the claim states. -/
theorem c3_neither_attr_logs_skip :
    cda_index_step (some ⟨none, none, none⟩) = (none, "SKIP") ∧
      "SKIP" ≠ "ERROR" := by
  constructor
  · rfl
  · decide

/-- The CDA-index outcome as the amended claim words it: a non-empty
`root` gives `root|extension` (when `extension` is present and non-empty,
else `root` alone) with OK; a missing id element gives ERROR; an element
whose `root` is absent or empty gives a null id with SKIP, whether or not
`nullFlavor` is present. -/
def spec_cda_index (idNode : Option CdaIdNode) : Option String × String :=
  match idNode with
  | none => (none, "ERROR")
  | some n =>
    match n.root with
    | some r =>
      if r ≠ "" then
        (some (match n.extension with
               | some e => if e ≠ "" then r ++ "|" ++ e else r
               | none => r), "OK")
      else (none, "SKIP")
    | none => (none, "SKIP")

/-- C3 (amended): the CDA-index step behaves exactly as `spec_cda_index`
describes — ERROR only for a missing id element; `root` present and
non-empty yields OK with the composite id; everything else is SKIP with a
null document id. -/
theorem c3_cda_index_characterization (idNode : Option CdaIdNode) :
    cda_index_step idNode = spec_cda_index idNode := by
  match idNode with
  | none => rfl
  | some ⟨r, e, nf⟩ =>
    cases r with
    | none =>
      cases nf with
      | none => rfl
      | some s => simp [cda_index_step, extract_document_id, spec_cda_index, truthy]
    | some rs =>
      by_cases hr : rs = ""
      · subst hr
        cases nf with
        | none => rfl
        | some s => simp [cda_index_step, extract_document_id, spec_cda_index, truthy]
      · cases e with
        | none => simp [cda_index_step, extract_document_id, spec_cda_index, truthy, hr]
        | some es =>
          by_cases he : es = "" <;>
            simp [cda_index_step, extract_document_id, spec_cda_index, truthy, hr, he]

/-! ## C6 — Password resolver
(`kenshin_lib/medi/zip_passwords.py`, `get_password_candidates`). -/

/-- One row of `medi_zip_passwords`. -/
structure ZipPasswordRow where
  zip_password_id : Nat
  scope_type : String
  zip_sha256 : Option String
  zip_name : Option String
  facility_code : Option String
  facility_folder_name : Option String
  password_text : Option String
  priority : Int
  is_active : Nat
deriving DecidableEq, Repr

/-- The four lookup parameters of `get_password_candidates`. -/
structure PwQuery where
  facility_code : String
  facility_folder_name : String
  zip_name : String
  zip_sha256 : String
deriving DecidableEq, Repr

/-- The SQL `WHERE` clause: active, and scope-specific column equality
(a NULL column never equals a parameter in SQL, hence `some`). -/
def pw_matches (q : PwQuery) (r : ZipPasswordRow) : Bool :=
  r.is_active == 1 &&
  ((r.scope_type == "ZIP_SHA256" && r.zip_sha256 == some q.zip_sha256) ||
   (r.scope_type == "ZIP_NAME" && r.zip_name == some q.zip_name) ||
   (r.scope_type == "FACILITY" &&
     (r.facility_code == some q.facility_code ||
      r.facility_folder_name == some q.facility_folder_name)))

/-- The `CASE scope_type` numeric rank of the `ORDER BY`. -/
def pw_scope_rank (scope : String) : Nat :=
  if scope = "ZIP_SHA256" then 10
  else if scope = "ZIP_NAME" then 20
  else if scope = "FACILITY" then 30
  else 99

/-- Strict comparison realising
`ORDER BY rank, priority ASC, zip_password_id ASC`. -/
def pw_lt (a b : ZipPasswordRow) : Bool :=
  if pw_scope_rank a.scope_type ≠ pw_scope_rank b.scope_type then
    decide (pw_scope_rank a.scope_type < pw_scope_rank b.scope_type)
  else if a.priority ≠ b.priority then decide (a.priority < b.priority)
  else decide (a.zip_password_id < b.zip_password_id)

/-- The accumulation loop of `get_password_candidates`: strip each
`password_text`, skip blanks, skip texts already seen, append the rest. -/
def collectPw (seen : List String) : List ZipPasswordRow → List String
  | [] => []
  | r :: rest =>
    let pw := pyStrip (r.password_text.getD "")
    if pw = "" then collectPw seen rest
    else if pw ∈ seen then collectPw seen rest
    else pw :: collectPw (pw :: seen) rest

/-- `get_password_candidates`: fetch matching rows in `ORDER BY` order and
run the accumulation loop. -/
def get_password_candidates (rows : List ZipPasswordRow) (q : PwQuery) :
    List String :=
  collectPw [] (sortByLt pw_lt (rows.filter (pw_matches q)))

/-- Matching row for the C6 counterexample: active FACILITY-scoped row
whose stored password text is a single space. -/
def pwRowBlank : ZipPasswordRow :=
  { zip_password_id := 1
    scope_type := "FACILITY"
    zip_sha256 := none
    zip_name := none
    facility_code := some "F1"
    facility_folder_name := none
    password_text := some " "
    priority := 1
    is_active := 1 }

/-- Query for the C6 counterexample. -/
def pwQueryF1 : PwQuery :=
  { facility_code := "F1"
    facility_folder_name := "F1_name"
    zip_name := "z.zip"
    zip_sha256 := "abc" }

/-- C6 counterexample: a matching active row whose text is a single space —
not the empty string — is nevertheless dropped, because the resolver strips
each text and excludes the ones blank after stripping.  The claim as stated
would return that text. -/
theorem c6_resolver_strips_texts :
    pw_matches pwQueryF1 pwRowBlank = true ∧
      pwRowBlank.password_text = some " " ∧ (" " : String) ≠ "" ∧
      get_password_candidates [pwRowBlank] pwQueryF1 = [] := by
  refine ⟨by decide, rfl, by decide, by decide⟩

/-- The resolver output as the amended claim words it: order the matching
active rows by scope precedence (ZIP_SHA256, ZIP_NAME, FACILITY), then
priority ascending, then password id ascending; take the stripped texts,
exclude those blank after stripping, and de-duplicate keeping the first
occurrence. -/
def spec_password_candidates (rows : List ZipPasswordRow) (q : PwQuery) :
    List String :=
  dedupKeepFirst []
    (((sortByLt pw_lt (rows.filter (pw_matches q))).map
        (fun r => pyStrip (r.password_text.getD ""))).filter (fun s => s ≠ ""))

theorem collectPw_eq_dedup (l : List ZipPasswordRow) :
    ∀ seen, collectPw seen l =
      dedupKeepFirst seen
        ((l.map (fun r => pyStrip (r.password_text.getD ""))).filter
          (fun s => s ≠ "")) := by
  induction l with
  | nil => intro seen; rfl
  | cons r rest ih =>
    intro seen
    simp only [collectPw, List.map_cons, List.filter_cons]
    by_cases hb : pyStrip (r.password_text.getD "") = ""
    · simp [hb, ih]
    · simp only [hb, if_neg hb]
      have : (decide ¬pyStrip (r.password_text.getD "") = "") = true := by
        simp [hb]
      simp only [this, dedupKeepFirst]
      by_cases hs : pyStrip (r.password_text.getD "") ∈ seen
      · simp [hs, ih]
      · simp [hs, ih]

/-- C6 (amended): the resolver returns exactly the stripped matching active
password texts, blanks-after-stripping excluded, de-duplicated keeping the
first occurrence, in scope-precedence / priority / id order — in particular
the empty list when nothing matches. -/
theorem c6_password_candidates_characterization
    (rows : List ZipPasswordRow) (q : PwQuery) :
    get_password_candidates rows q = spec_password_candidates rows q := by
  simpa [get_password_candidates, spec_password_candidates] using
    collectPw_eq_dedup (sortByLt pw_lt (rows.filter (pw_matches q))) []

/-! ## C10 — Item-Extract target selection
(`kenshin_lib/medi/db_medi.py`, `db_select_target_xmls_for_item_extract`,
and `scripts/medi_xml_item_extract.py`, `select_targets_safe`). -/

/-- The columns of `medi_xml_receipts` that the Item-Extract target query
reads or returns. -/
structure XmlReceiptQRow where
  xml_receipt_id : Nat
  xml_sha256 : String
  zip_sha256 : String
  zip_inner_path : String
  status : String
  items_extract_status : Option String
  updated_at : Nat
deriving DecidableEq, Repr

/-- `db_select_target_xmls_for_item_extract`:
`WHERE status=%s AND (items_extract_status IS NULL OR items_extract_status
<> 'OK') ORDER BY updated_at ASC LIMIT %s`. -/
def db_select_target_xmls_for_item_extract (table : List XmlReceiptQRow)
    (limit : Nat) (target_status : String) : List XmlReceiptQRow :=
  (sortByLt (fun a b => decide (a.updated_at < b.updated_at))
    (table.filter (fun r =>
      r.status == target_status &&
      (match r.items_extract_status with
       | none => true
       | some s => s != "OK")))).take limit

/-- `select_targets_safe`: a non-positive limit is replaced by a large one
(full-table behaviour) and the target status is fixed to OK. -/
def select_targets_safe (table : List XmlReceiptQRow) (limit : Int) :
    List XmlReceiptQRow :=
  let lim : Int := if limit ≤ 0 then 1000000 else limit
  db_select_target_xmls_for_item_extract table lim.toNat "OK"

/-- C10: every selected row has status OK and `items_extract_status`
different from OK (so a receipt already marked OK is never reprocessed);
conversely, a row with status OK left in ERROR or SKIP is selected again by
any run whose effective limit covers the table. -/
theorem c10_item_extract_selection (table : List XmlReceiptQRow)
    (limit : Int) (r : XmlReceiptQRow) :
    (r ∈ select_targets_safe table limit →
      r.status = "OK" ∧ r.items_extract_status ≠ some "OK") ∧
    (r ∈ table → r.status = "OK" →
      (r.items_extract_status = some "ERROR" ∨
        r.items_extract_status = some "SKIP") →
      table.length ≤ ((if limit ≤ 0 then (1000000 : Int) else limit)).toNat →
      r ∈ select_targets_safe table limit) := by
  have hmatch : ∀ o : Option String,
      ((match o with | none => true | some s => s != "OK") = true) ↔
        o ≠ some "OK" := by
    intro o
    cases o with
    | none => simp
    | some s =>
      by_cases hs : s = "OK" <;> simp [hs]
  constructor
  · intro hmem
    have h1 : r ∈ sortByLt (fun a b => decide (a.updated_at < b.updated_at))
        (table.filter (fun r =>
          r.status == "OK" &&
          (match r.items_extract_status with
           | none => true
           | some s => s != "OK"))) := List.mem_of_mem_take hmem
    have h2 := (mem_sortByLt _ _ _).1 h1
    have h3 := List.mem_filter.1 h2
    have h4 := h3.2
    simp only [Bool.and_eq_true, beq_iff_eq] at h4
    exact ⟨h4.1, (hmatch _).1 h4.2⟩
  · intro hmem hst hext hlen
    have hne : r.items_extract_status ≠ some "OK" := by
      rcases hext with h | h <;> simp [h]
    have hfil : r ∈ table.filter (fun r =>
        r.status == "OK" &&
        (match r.items_extract_status with
         | none => true
         | some s => s != "OK")) := by
      refine List.mem_filter.2 ⟨hmem, ?_⟩
      simp only [Bool.and_eq_true, beq_iff_eq]
      exact ⟨hst, (hmatch _).2 hne⟩
    have hsorted : r ∈ sortByLt (fun a b => decide (a.updated_at < b.updated_at))
        (table.filter (fun r =>
          r.status == "OK" &&
          (match r.items_extract_status with
           | none => true
           | some s => s != "OK"))) := (mem_sortByLt _ _ _).2 hfil
    have hlen2 : (sortByLt (fun a b => decide (a.updated_at < b.updated_at))
        (table.filter (fun r =>
          r.status == "OK" &&
          (match r.items_extract_status with
           | none => true
           | some s => s != "OK")))).length ≤
        ((if limit ≤ 0 then (1000000 : Int) else limit)).toNat := by
      rw [length_sortByLt]
      exact le_trans (List.length_filter_le _ _) hlen
    show r ∈ (sortByLt _ _).take _
    rw [List.take_of_length_le hlen2]
    exact hsorted

/-- Concrete row for the C10 witness: status OK, extract status ERROR. -/
def qRowErr : XmlReceiptQRow :=
  { xml_receipt_id := 1
    xml_sha256 := "x1"
    zip_sha256 := "z1"
    zip_inner_path := "DATA/a.xml"
    status := "OK"
    items_extract_status := some "ERROR"
    updated_at := 7 }

/-- C10 witness: on a one-row table within the limit, the ERROR row is
selected again. -/
theorem c10_item_extract_selection_witness :
    qRowErr ∈ select_targets_safe [qRowErr] 5 :=
  (c10_item_extract_selection [qRowErr] 5 qRowErr).2
    (by decide) (by decide) (Or.inl (by decide)) (by decide)

/-! ## C9 — Shared-Scan re-scan upsert
(`kenshin_lib/medi/db_shared_files.py`, `db_upsert_shared_file`, and the
row built in `scripts/medi_shared_files_scan.py`, `main`). -/

/-- The `SharedFileRow` dataclass passed to the upsert. -/
structure SharedFileRow where
  path : String
  src_folder_raw : Option String
  dst_folder_norm : Option String
  facility_hint : Option String
  file_name : String
  ext : String
  file_size : Int
  mtime : Option String
  sha256 : Option String
  auto_judgement : String
  manual_judgement : Option String
  stage_status : String
  note : Option String
  first_seen_at : String
  last_seen_at : String
deriving DecidableEq, Repr

/-- A stored row of `medi_shared_files` (id and unique `path_hash` added). -/
structure SharedFileDbRow where
  shared_file_id : Nat
  path_hash : String
  path : String
  src_folder_raw : Option String
  dst_folder_norm : Option String
  facility_hint : Option String
  file_name : String
  ext : String
  file_size : Int
  mtime : Option String
  sha256 : Option String
  auto_judgement : String
  manual_judgement : Option String
  stage_status : String
  note : Option String
  first_seen_at : String
  last_seen_at : String
deriving DecidableEq, Repr

/-- `clip_text(s, limit)`. -/
def clip_text (o : Option String) (limit : Nat) : Option String :=
  o.map (pyTake limit)

/-- The `ON DUPLICATE KEY UPDATE` clause of `db_upsert_shared_file`:
`sha256=COALESCE(VALUES(sha256), sha256)` keeps the stored hash when the
new row carries none; `manual_judgement=COALESCE(manual_judgement,
VALUES(manual_judgement))` keeps a stored manual judgement;
`first_seen_at` is not in the update list. -/
def sharedFileDupUpdate (old : SharedFileDbRow) (row : SharedFileRow) :
    SharedFileDbRow :=
  { old with
    path := row.path
    src_folder_raw := row.src_folder_raw
    dst_folder_norm := row.dst_folder_norm
    facility_hint := row.facility_hint
    file_name := row.file_name
    ext := row.ext
    file_size := row.file_size
    mtime := row.mtime
    sha256 := match row.sha256 with
              | some s => some s
              | none => old.sha256
    auto_judgement := row.auto_judgement
    manual_judgement := match old.manual_judgement with
                        | some m => some m
                        | none => row.manual_judgement
    stage_status := row.stage_status
    note := clip_text row.note 1024
    last_seen_at := row.last_seen_at }

/-- A freshly inserted `medi_shared_files` row. -/
def sharedFileNewRow (id : Nat) (ph : String) (row : SharedFileRow) :
    SharedFileDbRow :=
  { shared_file_id := id
    path_hash := ph
    path := row.path
    src_folder_raw := row.src_folder_raw
    dst_folder_norm := row.dst_folder_norm
    facility_hint := row.facility_hint
    file_name := row.file_name
    ext := row.ext
    file_size := row.file_size
    mtime := row.mtime
    sha256 := row.sha256
    auto_judgement := row.auto_judgement
    manual_judgement := row.manual_judgement
    stage_status := row.stage_status
    note := clip_text row.note 1024
    first_seen_at := row.first_seen_at
    last_seen_at := row.last_seen_at }

/-- `db_upsert_shared_file`: upsert keyed on `path_hash = sha1(path)`.
`sha1` is the message digest, abstracted as a function parameter. -/
def db_upsert_shared_file (sha1 : String → String)
    (db : List SharedFileDbRow) (nextId : Nat) (row : SharedFileRow) :
    List SharedFileDbRow × Nat :=
  let ph := sha1 row.path
  match db.find? (fun r => r.path_hash == ph) with
  | some _ =>
    (db.map (fun r => if r.path_hash == ph then sharedFileDupUpdate r row else r),
     nextId)
  | none => (db ++ [sharedFileNewRow nextId ph row], nextId + 1)

/-- The row the scan loop in `main` builds for every observed file:
`stage_status` NEW, `auto_judgement` UNKNOWN, no sha256, no manual
judgement, both seen timestamps set to the scan timestamp. -/
def scanRow (path : String) (src_folder_raw : Option String)
    (facility_hint : String) (file_name ext : String) (file_size : Int)
    (mtime : Option String) (ts : String) : SharedFileRow :=
  { path := path
    src_folder_raw := src_folder_raw
    dst_folder_norm := none
    facility_hint := some facility_hint
    file_name := file_name
    ext := ext
    file_size := file_size
    mtime := mtime
    sha256 := none
    auto_judgement := "UNKNOWN"
    manual_judgement := none
    stage_status := "NEW"
    note := none
    first_seen_at := ts
    last_seen_at := ts }

/-- Lookup a shared-files row by its `path_hash`. -/
def lookupSharedFile (db : List SharedFileDbRow) (ph : String) :
    Option SharedFileDbRow :=
  db.find? (fun r => r.path_hash == ph)

theorem find?_map_ite (p : α → Bool) (g : α → α)
    (hg : ∀ a, p (g a) = p a) (l : List α) :
    (l.map (fun r => if p r then g r else r)).find? p = (l.find? p).map g := by
  induction l with
  | nil => rfl
  | cons x xs ih =>
    by_cases hx : p x = true
    · simp [List.find?_cons, hx, hg]
    · have hx2 : p x = false := by
        cases h : p x
        · rfl
        · exact absurd h hx
      simp [List.find?_cons, hx2, ih]

/-- C9: re-scanning a path whose row already exists overwrites
`stage_status` with NEW and `auto_judgement` with UNKNOWN, while
`first_seen_at`, the stored `sha256` and the stored `manual_judgement` are
all preserved — so a row previously advanced to INPUT_COPIED or SKIPPED is
reset to NEW by a later scan observing the same path. -/
theorem c9_rescan_resets_stage (sha1 : String → String)
    (db : List SharedFileDbRow) (nextId : Nat) (old : SharedFileDbRow)
    (p : String) (src : Option String) (hint fn e : String) (sz : Int)
    (mt : Option String) (ts : String)
    (h : lookupSharedFile db (sha1 p) = some old) :
    lookupSharedFile
        (db_upsert_shared_file sha1 db nextId
          (scanRow p src hint fn e sz mt ts)).1 (sha1 p) =
      some (sharedFileDupUpdate old (scanRow p src hint fn e sz mt ts)) ∧
    (sharedFileDupUpdate old (scanRow p src hint fn e sz mt ts)).stage_status
        = "NEW" ∧
    (sharedFileDupUpdate old (scanRow p src hint fn e sz mt ts)).auto_judgement
        = "UNKNOWN" ∧
    (sharedFileDupUpdate old (scanRow p src hint fn e sz mt ts)).first_seen_at
        = old.first_seen_at ∧
    (sharedFileDupUpdate old (scanRow p src hint fn e sz mt ts)).sha256
        = old.sha256 ∧
    (sharedFileDupUpdate old (scanRow p src hint fn e sz mt ts)).manual_judgement
        = old.manual_judgement := by
  have hkey : ∀ a : SharedFileDbRow,
      ((sharedFileDupUpdate a (scanRow p src hint fn e sz mt ts)).path_hash
          == sha1 p) = (a.path_hash == sha1 p) := by
    intro a; rfl
  refine ⟨?_, rfl, rfl, rfl, rfl, ?_⟩
  · unfold lookupSharedFile at h
    simp only [db_upsert_shared_file,
      show (scanRow p src hint fn e sz mt ts).path = p from rfl, h]
    unfold lookupSharedFile
    rw [find?_map_ite (fun r => r.path_hash == sha1 p)
      (fun r => sharedFileDupUpdate r (scanRow p src hint fn e sz mt ts)) hkey db]
    rw [h]
    rfl
  · show (match old.manual_judgement with
          | some m => some m
          | none => (scanRow p src hint fn e sz mt ts).manual_judgement)
        = old.manual_judgement
    cases old.manual_judgement <;> rfl

/-- Stored row for the C9 witness: previously copied to input, hashed and
manually judged. -/
def sharedRowCopied : SharedFileDbRow :=
  { shared_file_id := 3
    path_hash := "P1"
    path := "P1"
    src_folder_raw := some "fac"
    dst_folder_norm := none
    facility_hint := some "fac"
    file_name := "a.zip"
    ext := "zip"
    file_size := 10
    mtime := some "2025-01-01"
    sha256 := some "deadbeef"
    auto_judgement := "KENSHIN"
    manual_judgement := some "KENSHIN"
    stage_status := "INPUT_COPIED"
    note := none
    first_seen_at := "2025-01-01"
    last_seen_at := "2025-01-02"}

/-- C9 witness: the theorem applied to a concrete INPUT_COPIED row with the
identity digest. -/
theorem c9_rescan_resets_stage_witness :
    lookupSharedFile
        (db_upsert_shared_file (fun s => s) [sharedRowCopied] 9
          (scanRow "P1" (some "fac") "fac" "a.zip" "zip" 10
            (some "2025-02-02") "2025-02-03")).1 "P1" =
      some (sharedFileDupUpdate sharedRowCopied
        (scanRow "P1" (some "fac") "fac" "a.zip" "zip" 10
          (some "2025-02-02") "2025-02-03")) ∧
    (sharedFileDupUpdate sharedRowCopied
        (scanRow "P1" (some "fac") "fac" "a.zip" "zip" 10
          (some "2025-02-02") "2025-02-03")).stage_status = "NEW" ∧
    (sharedFileDupUpdate sharedRowCopied
        (scanRow "P1" (some "fac") "fac" "a.zip" "zip" 10
          (some "2025-02-02") "2025-02-03")).auto_judgement = "UNKNOWN" ∧
    (sharedFileDupUpdate sharedRowCopied
        (scanRow "P1" (some "fac") "fac" "a.zip" "zip" 10
          (some "2025-02-02") "2025-02-03")).first_seen_at
        = sharedRowCopied.first_seen_at ∧
    (sharedFileDupUpdate sharedRowCopied
        (scanRow "P1" (some "fac") "fac" "a.zip" "zip" 10
          (some "2025-02-02") "2025-02-03")).sha256 = sharedRowCopied.sha256 ∧
    (sharedFileDupUpdate sharedRowCopied
        (scanRow "P1" (some "fac") "fac" "a.zip" "zip" 10
          (some "2025-02-02") "2025-02-03")).manual_judgement
        = sharedRowCopied.manual_judgement :=
  c9_rescan_resets_stage (fun s => s) [sharedRowCopied] 9 sharedRowCopied
    "P1" (some "fac") "fac" "a.zip" "zip" 10 (some "2025-02-02") "2025-02-03"
    (by decide)

/-! ## C7 — Item-Extract occurrence counters
(`scripts/medi_xml_item_extract.py`, `_collect_observations_as_raw_items`
and its helpers).  An lxml element is modelled by its attribute list, its
direct text and its concatenated subtree text (`itertext`); an observation
by the first hits of `./cda:code`, `./cda:value`, `./cda:text`. -/

/-- An XML element as the observation walk reads it. -/
structure XmlNode where
  attrs : List (String × String)
  text : Option String
  itertext : String
deriving DecidableEq, Repr

/-- lxml `node.get(name)`: `None` when the attribute is absent. -/
def nodeGet (n : XmlNode) (a : String) : Option String :=
  (n.attrs.find? (fun kv => kv.1 == a)).map (fun kv => kv.2)

/-- One `//cda:observation` node: first `./cda:code`, `./cda:value` and
`./cda:text` children (or `none` when the xpath matched nothing). -/
structure ObsNode where
  codeNode : Option XmlNode
  valueNode : Option XmlNode
  textNode : Option XmlNode
deriving DecidableEq, Repr

/-- `_strip_or_none`. -/
def strip_or_none (o : Option String) : Option String :=
  match o with
  | none => none
  | some s =>
    let s2 := pyStrip s
    if s2 = "" then none else some s2

/-- The Clark-notation attribute key of `xsi:type`, kept abstract as a
fixed string. -/
def xsiTypeKey : String := "xsi:type"

/-- `_xsi_type`. -/
def xsi_type (n : XmlNode) : Option String :=
  strip_or_none (nodeGet n xsiTypeKey)

/-- `_infer_value_type_from_node`. -/
def infer_value_type_from_node (v : XmlNode) : Option String :=
  match xsi_type v with
  | some xt => some xt
  | none =>
    if (nodeGet v "value").isSome then some "ST"
    else if pyStrip (v.text.getD "") ≠ "" then some "ST"
    else none

/-- The repeated `node.text` fallback of `_extract_by_value_method`. -/
def nodeTextOrNone (node : XmlNode) : Option String :=
  let t := pyStrip (node.text.getD "")
  if t ≠ "" then some t else none

/-- `_extract_by_value_method`. -/
def extract_by_value_method (node : XmlNode) (value_method : String) :
    Option String :=
  let vm := pyStrip value_method
  if vm = "" then
    match nodeGet node "value" with
    | some v => if pyStrip v ≠ "" then some (pyStrip v) else nodeTextOrNone node
    | none => nodeTextOrNone node
  else if vm.data.head? = some '@' then
    match nodeGet node ⟨vm.data.tail⟩ with
    | some v => if pyStrip v ≠ "" then some (pyStrip v) else none
    | none => none
  else if vm = "text()" ∨ vm = "text" then nodeTextOrNone node
  else if vm = "string()" ∨ vm = "string" then
    let t := pyStrip node.itertext
    if t ≠ "" then some t else none
  else nodeTextOrNone node

/-- `_infer_value_type_from_master`. -/
def infer_value_type_from_master (xml_value_type : String) : Option String :=
  let t := pyUpper (pyStrip xml_value_type)
  if t = "PQ" ∨ t = "CD" ∨ t = "CO" ∨ t = "ST" then some t else none

/-- The 6-tuple returned by `_value_from_value_node`. -/
structure ValueFields where
  value_raw : Option String
  value_type : Option String
  unit : Option String
  code_system : Option String
  code_value : Option String
  code_display : Option String
deriving DecidableEq, Repr

/-- `_value_from_value_node`. -/
def value_from_value_node (vnode : Option XmlNode) (value_method : String)
    (prefer_master_type : Option String) : ValueFields :=
  match vnode with
  | none => ⟨none, none, none, none, none, none⟩
  | some v =>
    { value_raw := extract_by_value_method v value_method
      value_type := pyOrOpt prefer_master_type (infer_value_type_from_node v)
      unit := strip_or_none (nodeGet v "unit")
      code_system := strip_or_none (nodeGet v "codeSystem")
      code_value := strip_or_none (nodeGet v "code")
      code_display := strip_or_none (nodeGet v "displayName") }

/-- One `exam_item_master` row as the walk consumes it. -/
structure ExamItem where
  namecode : String
  xml_value_type : Option String
  value_method : Option String
deriving DecidableEq, Repr

/-- One output row destined for `medi_xml_item_values`. -/
structure RawItem where
  namecode : String
  occurrence_no : Nat
  value_raw : Option String
  value_type : Option String
  unit : Option String
  code_system : Option String
  code_value : Option String
  code_display : Option String
deriving DecidableEq, Repr

/-- Point update of the per-namecode occurrence counter dictionary. -/
def updFn (m : String → Nat) (k : String) (v : Nat) : String → Nat :=
  fun x => if x = k then v else m x

/-- The row appended for one observation that produced `namecode` with
occurrence number `n` (the loop body after the counter bump). -/
def obsRawItem (masterMap : String → Option ExamItem) (obs : ObsNode)
    (code : XmlNode) (namecode : String) (n : Nat) : RawItem :=
  let vnode := match obs.valueNode with
               | some v => some v
               | none => obs.textNode
  let master := masterMap namecode
  let prefer_type :=
    infer_value_type_from_master ((master.bind (fun m => m.xml_value_type)).getD "")
  let value_method := pyStrip ((master.bind (fun m => m.value_method)).getD "")
  let f := value_from_value_node vnode value_method prefer_type
  let obs_code_system := strip_or_none (nodeGet code "codeSystem")
  let obs_code_value := strip_or_none (nodeGet code "code")
  let obs_code_display := strip_or_none (nodeGet code "displayName")
  { namecode := namecode
    occurrence_no := n
    value_raw := f.value_raw
    value_type := f.value_type
    unit := f.unit
    code_system := pyOrOpt f.code_system obs_code_system
    code_value := pyOrOpt f.code_value obs_code_value
    code_display := pyOrOpt f.code_display obs_code_display }

/-- The observation loop of `_collect_observations_as_raw_items`: skip
observations without a code node or with a blank `code/@code`; otherwise
bump the per-namecode counter and append one row. -/
def collectObsLoop (masterMap : String → Option ExamItem)
    (occ : String → Nat) : List ObsNode → List RawItem
  | [] => []
  | obs :: rest =>
    match obs.codeNode with
    | none => collectObsLoop masterMap occ rest
    | some code =>
      match strip_or_none (nodeGet code "code") with
      | none => collectObsLoop masterMap occ rest
      | some namecode =>
        obsRawItem masterMap obs code namecode (occ namecode + 1) ::
          collectObsLoop masterMap (updFn occ namecode (occ namecode + 1)) rest

/-- `_collect_observations_as_raw_items`: counters start empty
(`occ.get(namecode, 0)` is 0). -/
def collect_observations_as_raw_items
    (masterMap : String → Option ExamItem) (obsList : List ObsNode) :
    List RawItem :=
  collectObsLoop masterMap (fun _ => 0) obsList

theorem collectObsLoop_occurrences (masterMap : String → Option ExamItem)
    (nc : String) (l : List ObsNode) :
    ∀ occ : String → Nat,
      ((collectObsLoop masterMap occ l).filter
          (fun r => r.namecode == nc)).map (fun r => r.occurrence_no)
        = List.range' (occ nc + 1)
            (((collectObsLoop masterMap occ l).filter
                (fun r => r.namecode == nc)).length) := by
  induction l with
  | nil => intro occ; rfl
  | cons obs rest ih =>
    intro occ
    cases hc : obs.codeNode with
    | none => simpa [collectObsLoop, hc] using ih occ
    | some code =>
      cases hn : strip_or_none (nodeGet code "code") with
      | none => simpa [collectObsLoop, hc, hn] using ih occ
      | some namecode =>
        simp only [collectObsLoop, hc, hn]
        by_cases hnc : namecode = nc
        · subst hnc
          have hhead : ((obsRawItem masterMap obs code namecode
              (occ namecode + 1)).namecode == namecode) = true := by
            simp [obsRawItem]
          simp only [List.filter_cons, hhead, if_pos, List.map_cons,
            List.length_cons]
          have ihx := ih (updFn occ namecode (occ namecode + 1))
          have hupd : updFn occ namecode (occ namecode + 1) namecode
              = occ namecode + 1 := by simp [updFn]
          rw [hupd] at ihx
          rw [List.range'_succ]
          exact congrArg (fun t => (obsRawItem masterMap obs code namecode
            (occ namecode + 1)).occurrence_no :: t) ihx
        · have hhead : ((obsRawItem masterMap obs code namecode
              (occ namecode + 1)).namecode == nc) = false := by
            simp [obsRawItem, hnc]
          simp only [List.filter_cons, hhead]
          have ihx := ih (updFn occ namecode (occ namecode + 1))
          have hupd : updFn occ namecode (occ namecode + 1) nc = occ nc := by
            simp only [updFn]
            rw [if_neg (fun h => hnc h.symm)]
          rw [hupd] at ihx
          simpa using ihx

/-- C7: within one document, the occurrence numbers emitted for any given
namecode form the consecutive sequence 1..k in document order — the
per-namecode counter starts at 1 and increments by one per further
observation carrying that namecode.  (Every emitted row is upserted into
`xml_item_values` unchanged by the write loop of `main`.) -/
theorem c7_occurrences_consecutive (masterMap : String → Option ExamItem)
    (obsList : List ObsNode) (nc : String) :
    ((collect_observations_as_raw_items masterMap obsList).filter
        (fun r => r.namecode == nc)).map (fun r => r.occurrence_no)
      = List.range' 1
          (((collect_observations_as_raw_items masterMap obsList).filter
              (fun r => r.namecode == nc)).length) := by
  simpa [collect_observations_as_raw_items] using
    collectObsLoop_occurrences masterMap nc obsList (fun _ => 0)

/-! ## C4 — Stage F structure classification
(`scripts/medi_zip_import.py`, `zip_import_phase` steps 2-1/2-2, with the
helpers `find_data_dirs`, `list_xml_files_under_data_dirs`,
`list_xml_files_anywhere`, `zip_has_any_file`).

The extracted scratch directory is modelled as the lists of directories and
files it contains, each as root-relative component lists. -/

/-- Lexicographic comparison of character lists (Python string `<`). -/
def strLtL : List Char → List Char → Bool
  | [], [] => false
  | [], _ :: _ => true
  | _ :: _, [] => false
  | x :: xs, y :: ys => if x = y then strLtL xs ys else decide (x < y)

/-- Path components joined with a forward slash (`str(path)` relative to
the extraction root). -/
def pathStr (p : List String) : String := String.intercalate "/" p

/-- The `(len(x.parts), str(x))` sort key of `find_data_dirs`. -/
def dirLt (a b : List String) : Bool :=
  if a.length ≠ b.length then decide (a.length < b.length)
  else strLtL (pathStr a).data (pathStr b).data

/-- The `key=lambda x: str(x)` sort of the XML file lists. -/
def pathLt (a b : List String) : Bool :=
  strLtL (pathStr a).data (pathStr b).data

/-- `f` lies strictly under directory `d`. -/
def underDir (d f : List String) : Bool :=
  List.isPrefixOf d f && decide (d.length < f.length)

/-- `rglob("*.xml")`: the file name ends in `.xml`. -/
def isXmlName (p : List String) : Bool :=
  listEndsWith (p.getLast?.getD "").data ".xml".data

/-- The extracted scratch directory: every directory and every file under
the root, as root-relative component lists. -/
structure ExtractedTree where
  dirs : List (List String)
  files : List (List String)
deriving DecidableEq, Repr

/-- `find_data_dirs`: directories named DATA, sorted by depth then path
string. -/
def find_data_dirs (t : ExtractedTree) : List (List String) :=
  sortByLt dirLt (t.dirs.filter (fun d => d.getLast? == some "DATA"))

/-- `list_xml_files_under_data_dirs`: for each DATA directory, the XML
files strictly under it, concatenated, then sorted by path string. -/
def list_xml_files_under_data_dirs (t : ExtractedTree)
    (dataDirs : List (List String)) : List (List String) :=
  sortByLt pathLt
    (dataDirs.flatMap (fun d =>
      t.files.filter (fun f => underDir d f && isXmlName f)))

/-- `list_xml_files_anywhere`. -/
def list_xml_files_anywhere (t : ExtractedTree) : List (List String) :=
  sortByLt pathLt (t.files.filter isXmlName)

/-- `zip_has_any_file`: some file exists under the extraction root. -/
def zip_has_any_file (t : ExtractedTree) : Bool := !t.files.isEmpty

/-- The structure fields recorded on the ZIP receipt. -/
structure StructOutcome where
  structure_status : String
  error_code : Option String
  data_dir_count : Option Nat
  data_xml_count : Option Nat
deriving DecidableEq, Repr

/-- Steps 2-1/2-2 of `zip_import_phase` after a successful extraction:
empty content, DATA-directory counting, XML collection, and the final
OK/ERROR decision with its `error_code`. -/
def structure_check (t : ExtractedTree) : StructOutcome :=
  if !zip_has_any_file t then
    ⟨"ERROR", some "ZIP_EMPTY_CONTENT", some 0, some 0⟩
  else
    let data_dirs := find_data_dirs t
    let ddc := data_dirs.length
    if 1 ≤ ddc then
      let xml_files := list_xml_files_under_data_dirs t data_dirs
      let ec : Option String :=
        if 2 ≤ ddc then some "STRUCT_MULTI_DATA_DIR" else none
      let dxc := xml_files.length
      if 0 < dxc then ⟨"OK", ec, some ddc, some dxc⟩
      else if ddc = 1 then ⟨"ERROR", some "STRUCT_ZERO_XML", some ddc, some dxc⟩
      else ⟨"ERROR", pyOrOpt ec (some "STRUCT_ZERO_XML"), some ddc, some dxc⟩
    else
      let xml_files := list_xml_files_anywhere t
      let ec : Option String := some "STRUCT_NO_DATA_DIR"
      let dxc := xml_files.length
      if 0 < dxc then ⟨"OK", ec, some ddc, some dxc⟩
      else ⟨"ERROR", pyOrOpt ec (some "STRUCT_ZERO_XML"), some ddc, some dxc⟩

/-- The `messages` list the structure step of `zip_import_phase`
accumulates on a successful extraction: the empty-content note, the
multi-DATA count and five-path sample, the no-DATA fallback note, and the
zero-XML notes, in the order the code appends them.  (The receipt stores
their join as `structure_message`.) -/
def structure_check_messages (t : ExtractedTree) : List String :=
  if !zip_has_any_file t then
    ["ZIP展開後にファイルが存在しません（空ZIP/0バイトの可能性）"]
  else
    let data_dirs := find_data_dirs t
    let ddc := data_dirs.length
    if 1 ≤ ddc then
      let xml_files := list_xml_files_under_data_dirs t data_dirs
      let m1 : List String :=
        if 2 ≤ ddc then
          ["DATAフォルダが複数検出されました: count=" ++ toString ddc,
           "DATA候補(先頭5): " ++
             String.intercalate ", " ((data_dirs.take 5).map pathStr)]
        else []
      let dxc := xml_files.length
      if 0 < dxc then m1
      else if ddc = 1 then m1 ++ ["DATA配下にXMLが0件です（空）"]
      else m1 ++ ["ZIP内にXMLが検出できません"]
    else
      let xml_files := list_xml_files_anywhere t
      let m1 : List String :=
        ["DATAフォルダが検出できません（ただしXMLを探索して棚卸し対象にします）"]
      let dxc := xml_files.length
      if 0 < dxc then m1
      else m1 ++ ["ZIP内にXMLが検出できません"]

/-- C4 counterexample: an archive that extracts to a single non-XML file —
no DATA directory, zero collected XMLs — ends ERROR with `error_code`
STRUCT_NO_DATA_DIR, not STRUCT_ZERO_XML as the claim states. -/
theorem c4_zero_xml_keeps_warning_code :
    structure_check ⟨[], [["readme.txt"]]⟩ =
      ⟨"ERROR", some "STRUCT_NO_DATA_DIR", some 0, some 0⟩ ∧
    (some "STRUCT_NO_DATA_DIR" : Option String) ≠ some "STRUCT_ZERO_XML" := by
  exact ⟨by decide, by decide⟩

/-- The DATA directories as the spec words them: the directories named
DATA (unsorted). -/
def spec_data_dirs (t : ExtractedTree) : List (List String) :=
  t.dirs.filter (fun d => d.getLast? == some "DATA")

/-- The number of XMLs the stage collects, as the spec words it: with at
least one DATA directory, the XMLs under each DATA directory (counted per
directory); with none, any XML anywhere. -/
def spec_collected_xml_count (t : ExtractedTree) : Nat :=
  if 1 ≤ (spec_data_dirs t).length then
    ((spec_data_dirs t).flatMap (fun d =>
      t.files.filter (fun f => underDir d f && isXmlName f))).length
  else (t.files.filter isXmlName).length

/-- The structure outcome as the amended claim words it. -/
def spec_zip_structure (t : ExtractedTree) : StructOutcome :=
  if t.files.isEmpty then ⟨"ERROR", some "ZIP_EMPTY_CONTENT", some 0, some 0⟩
  else
    let n := (spec_data_dirs t).length
    let k := spec_collected_xml_count t
    if 0 < k then
      ⟨"OK",
        if 2 ≤ n then some "STRUCT_MULTI_DATA_DIR"
        else if n = 0 then some "STRUCT_NO_DATA_DIR"
        else none,
        some n, some k⟩
    else
      ⟨"ERROR",
        if n = 1 then some "STRUCT_ZERO_XML"
        else if n = 0 then some "STRUCT_NO_DATA_DIR"
        else some "STRUCT_MULTI_DATA_DIR",
        some n, some k⟩

theorem find_data_dirs_length (t : ExtractedTree) :
    (find_data_dirs t).length = (spec_data_dirs t).length :=
  length_sortByLt _ _

theorem xml_under_data_length (t : ExtractedTree) :
    (list_xml_files_under_data_dirs t (find_data_dirs t)).length
      = ((spec_data_dirs t).flatMap (fun d =>
          t.files.filter (fun f => underDir d f && isXmlName f))).length := by
  unfold list_xml_files_under_data_dirs
  rw [length_sortByLt]
  exact ((sortByLt_perm dirLt (spec_data_dirs t)).flatMap_right _).length_eq

theorem c4_structure_fields (t : ExtractedTree) :
    structure_check t = spec_zip_structure t := by
  unfold structure_check spec_zip_structure zip_has_any_file
  by_cases hf : t.files.isEmpty
  · simp [hf]
  · simp only [hf, Bool.not_false, if_true, Bool.not_true, if_false]
    rw [find_data_dirs_length t]
    by_cases h1 : 1 ≤ (spec_data_dirs t).length
    · simp only [if_pos h1]
      rw [xml_under_data_length t]
      have hk : spec_collected_xml_count t
          = ((spec_data_dirs t).flatMap (fun d =>
              t.files.filter (fun f => underDir d f && isXmlName f))).length := by
        unfold spec_collected_xml_count
        rw [if_pos h1]
      rw [← hk]
      by_cases hpos : 0 < spec_collected_xml_count t
      · simp only [if_pos hpos]
        by_cases h2 : 2 ≤ (spec_data_dirs t).length
        · have hne : (spec_data_dirs t).length ≠ 0 := by omega
          simp [h2, hne]
        · have heq1 : (spec_data_dirs t).length = 1 := by omega
          simp [heq1]
      · simp only [if_neg hpos]
        by_cases heq1 : (spec_data_dirs t).length = 1
        · simp [heq1]
        · have h2 : 2 ≤ (spec_data_dirs t).length := by omega
          have hne : (spec_data_dirs t).length ≠ 0 := by omega
          simp [heq1, h2, hne, pyOrOpt]
    · have h0 : (spec_data_dirs t).length = 0 := by omega
      simp only [if_neg h1]
      have hk : spec_collected_xml_count t = (t.files.filter isXmlName).length := by
        unfold spec_collected_xml_count
        rw [if_neg h1]
      have hlen : (list_xml_files_anywhere t).length
          = (t.files.filter isXmlName).length := length_sortByLt _ _
      rw [hlen, ← hk]
      by_cases hpos : 0 < spec_collected_xml_count t
      · simp [hpos, h0]
      · simp [hpos, h0, pyOrOpt]

/-- C4 (amended): after a successful extraction, the structure fields are
exactly as `spec_zip_structure` describes — ERROR/ZIP_EMPTY_CONTENT on an
empty extraction; XMLs collected under all DATA directories when at least
one exists (the MULTI warning recorded for several, together with a sample
of paths: the first five DATA directories in depth-then-path order),
anywhere otherwise (the NO_DATA_DIR warning recorded); OK exactly when the
collected count is positive; and on a zero count, error_code
STRUCT_ZERO_XML when there was exactly one DATA directory, the
already-recorded structure warning otherwise. -/
theorem c4_structure_characterization (t : ExtractedTree) :
    structure_check t = spec_zip_structure t ∧
    (2 ≤ (spec_data_dirs t).length → t.files ≠ [] →
      ("DATA候補(先頭5): " ++
          String.intercalate ", " (((find_data_dirs t).take 5).map pathStr))
        ∈ structure_check_messages t) := by
  constructor
  · exact c4_structure_fields t
  · intro h2 hne
    unfold structure_check_messages zip_has_any_file
    have hf : t.files.isEmpty = false := by
      cases hfe : t.files with
      | nil => exact absurd hfe hne
      | cons a l => rfl
    rw [hf]
    simp only [Bool.not_false, Bool.not_true, if_false]
    have h2f : 2 ≤ (find_data_dirs t).length := by
      rw [find_data_dirs_length]; exact h2
    have h1f : 1 ≤ (find_data_dirs t).length := by omega
    rw [if_pos h1f, if_pos h2f]
    by_cases hdx :
        0 < (list_xml_files_under_data_dirs t (find_data_dirs t)).length
    · rw [if_pos hdx]
      simp
    · rw [if_neg hdx]
      have hno1 : ¬(find_data_dirs t).length = 1 := by omega
      rw [if_neg hno1]
      simp

/-- DATA directories at the root and under a subdirectory, one XML: the
C4 witness tree with several DATA directories. -/
def treeTwoData : ExtractedTree :=
  ⟨[["DATA"], ["sub"], ["sub", "DATA"]], [["DATA", "a.xml"]]⟩

/-- C4 witness: the characterization applied to a tree with two DATA
directories — the fields match the spec description and the recorded
messages include the five-path DATA sample. -/
theorem c4_structure_characterization_witness :
    structure_check treeTwoData = spec_zip_structure treeTwoData ∧
    ("DATA候補(先頭5): " ++
        String.intercalate ", "
          (((find_data_dirs treeTwoData).take 5).map pathStr))
      ∈ structure_check_messages treeTwoData :=
  ⟨(c4_structure_characterization treeTwoData).1,
   (c4_structure_characterization treeTwoData).2 (by decide) (by decide)⟩

/-! ## C1 — Normalize-Values dispatch
(`scripts/normalize_item_values.py`: `select_targets`, `get_master`,
`lookup_code_like`, `normalize_code_like` and the dispatch in `main`).

The PQ numeric check is Python `float(v)`, embedded below as `isPyFloat`:
Python's float-literal grammar with optional sign, underscores strictly
between digits, exponents, and the case-insensitive words inf / infinity /
nan. -/

/-- ASCII digit. -/
def isDig (c : Char) : Bool := '0' ≤ c && c ≤ '9'

/-- Consume the tail of a Python digit run (underscores allowed strictly
between digits).  `none` marks a malformed run (dangling underscore). -/
def chompDigitsTail : List Char → Option (List Char)
  | [] => some []
  | '_' :: rest =>
    match rest with
    | c :: r2 => if isDig c then chompDigitsTail r2 else none
    | [] => none
  | c :: rest => if isDig c then chompDigitsTail rest else some (c :: rest)

/-- Consume a Python digit run: at least one digit, underscores strictly
between digits; returns the remainder. -/
def chompDigits (cs : List Char) : Option (List Char) :=
  match cs with
  | c :: rest => if isDig c then chompDigitsTail rest else none
  | [] => none

/-- Recognise an optional exponent followed by end of input. -/
def pyFloatExpOrEnd : List Char → Bool
  | [] => true
  | c :: rest =>
    if c = 'e' ∨ c = 'E' then
      match rest with
      | s :: r2 =>
        if s = '+' ∨ s = '-' then
          match chompDigits r2 with
          | some [] => true
          | _ => false
        else
          match chompDigits (s :: r2) with
          | some [] => true
          | _ => false
      | [] => false
    else false

/-- Recognise a Python float mantissa (after the sign) with optional
exponent: `digitpart [. [digitpart]] | . digitpart`. -/
def pyFloatNumber (cs : List Char) : Bool :=
  match cs with
  | c :: rest =>
    if isDig c then
      match chompDigitsTail rest with
      | none => false
      | some r1 =>
        match r1 with
        | '.' :: r2 =>
          (match r2 with
           | d :: _ =>
             if isDig d then
               match chompDigits r2 with
               | none => false
               | some r3 => pyFloatExpOrEnd r3
             else pyFloatExpOrEnd r2
           | [] => true)
        | _ => pyFloatExpOrEnd r1
    else if c = '.' then
      match chompDigits rest with
      | none => false
      | some r3 => pyFloatExpOrEnd r3
    else false
  | [] => false

/-- The body after the optional sign: inf / infinity / nan
(case-insensitive) or a number. -/
def pyFloatBody (cs : List Char) : Bool :=
  let lower := cs.map asciiLower
  if lower = "inf".data ∨ lower = "infinity".data ∨ lower = "nan".data then true
  else pyFloatNumber cs

/-- Python `float(s)` succeeds on `s`. -/
def isPyFloat (s : String) : Bool :=
  match stripL s.data with
  | '+' :: rest => pyFloatBody rest
  | '-' :: rest => pyFloatBody rest
  | cs => pyFloatBody cs

/-- One row of `medi_exam_result_item_values` as Normalize-Values reads
it. -/
structure ItemValueRow where
  item_value_id : Nat
  normalize_status : String
  value : Option String
  namecode : Option String
  raw_value : Option String
deriving DecidableEq, Repr

/-- `select_targets`: rows with `normalize_status='RAW'` and `value` NULL
or empty, ordered by id, limited (a non-positive limit means 1,000,000). -/
def select_targets (rows : List ItemValueRow) (limit : Int) :
    List ItemValueRow :=
  let lim : Int := if limit ≤ 0 then 1000000 else limit
  (sortByLt (fun a b => decide (a.item_value_id < b.item_value_id))
    (rows.filter (fun r =>
      r.normalize_status == "RAW" &&
      (r.value == none || r.value == some "")))).take lim.toNat

/-- One `exam_item_master` row as `get_master` returns it. -/
structure ExamItemMasterRow where
  namecode : String
  xml_value_type : Option String
  result_code_oid : Option String
deriving DecidableEq, Repr

/-- One row of `norm_variants`. -/
structure NormVariant where
  variant_id : Nat
  result_code_oid : String
  raw_value_utf8 : String
  is_active : Nat
  is_canonical : Nat
  priority : Int
  normalized_code : String
deriving DecidableEq, Repr

/-- `ORDER BY is_canonical DESC, priority ASC, variant_id ASC`. -/
def variantLt (a b : NormVariant) : Bool :=
  if a.is_canonical ≠ b.is_canonical then decide (b.is_canonical < a.is_canonical)
  else if a.priority ≠ b.priority then decide (a.priority < b.priority)
  else decide (a.variant_id < b.variant_id)

/-- `lookup_code_like`: exact match on oid and raw value among active
variants, canonical-first order, `LIMIT 1`. -/
def lookup_code_like (variants : List NormVariant)
    (result_code_oid raw_value : String) : Option NormVariant :=
  (sortByLt variantLt (variants.filter (fun v =>
    v.result_code_oid == result_code_oid &&
    v.raw_value_utf8 == raw_value &&
    v.is_active == 1))).head?

/-- The per-row result of the stage: `update_ok value` or
`update_error msg`. -/
inductive NormOutcome where
  | ok (value : String)
  | error (msg : String)
deriving DecidableEq, Repr

/-- `normalize_code_like`: the shared CD/CO code path. -/
def normalize_code_like (variants : List NormVariant)
    (xml_value_type result_code_oid raw_value_str : String) : NormOutcome :=
  if result_code_oid = "" then
    .error (xml_value_type ++ " but result_code_oid is NULL/empty in exam_item_master")
  else
    match lookup_code_like variants result_code_oid raw_value_str with
    | none => .error (xml_value_type ++ " no match in norm_variants: result_code_oid="
        ++ result_code_oid ++ ", raw_value=" ++ raw_value_str)
    | some hit => .ok hit.normalized_code

/-- The dispatch in the `main` loop, after the master row is fetched:
branch on the stripped upper-cased `xml_value_type`. -/
def normalize_dispatch (variants : List NormVariant)
    (xml_value_type result_code_oid : String) (raw_value : Option String) :
    NormOutcome :=
  let raw_value_str := raw_value.getD ""
  if xml_value_type = "ST" ∨ xml_value_type = "" then
    match raw_value with
    | none => .error "ST raw_value is NULL"
    | some _ => .ok raw_value_str
  else if xml_value_type = "PQ" then
    let v := pyStrip raw_value_str
    if v = "" then .error "PQ raw_value becomes empty after trim"
    else if isPyFloat v then .ok v
    else .error ("PQ not numeric: raw_value=" ++ raw_value_str)
  else if xml_value_type = "CD" then
    normalize_code_like variants "CD" result_code_oid raw_value_str
  else if xml_value_type = "CO" then
    normalize_code_like variants "CO" result_code_oid raw_value_str
  else .error ("unsupported xml_value_type=" ++ xml_value_type)

/-- The whole per-row body of `main`: empty namecode and missing master
are errors, otherwise dispatch on the master's type. -/
def normalize_item_value (masters : String → Option ExamItemMasterRow)
    (variants : List NormVariant) (row : ItemValueRow) : NormOutcome :=
  let namecode := row.namecode.getD ""
  if namecode = "" then .error "namecode is empty"
  else
    match masters namecode with
    | none => .error ("exam_item_master not found: namecode=" ++ namecode)
    | some master =>
      normalize_dispatch variants
        (pyUpper (pyStrip (master.xml_value_type.getD "")))
        (pyStrip (master.result_code_oid.getD ""))
        row.raw_value

/-- The value stored on success, `none` on ERROR. -/
def outcomeValue : NormOutcome → Option String
  | .ok v => some v
  | .error _ => none

/-- A real-number literal with no separators, as the claim words the PQ
check: optional sign, digits with at most one decimal point and at least
one digit, optional exponent — no underscores, no infinities, no NaN. -/
def spec_real_number_no_separators (s : String) : Bool :=
  let cs := match s.data with
            | '+' :: r => r
            | '-' :: r => r
            | r => r
  let intPart := cs.takeWhile isDig
  let rest1 := cs.dropWhile isDig
  let mantOk : Bool :=
    match rest1 with
    | '.' :: r2 => !intPart.isEmpty || !(r2.takeWhile isDig).isEmpty
    | _ => !intPart.isEmpty
  let afterMant : List Char :=
    match rest1 with
    | '.' :: r2 => r2.dropWhile isDig
    | _ => rest1
  mantOk &&
  (match afterMant with
   | [] => true
   | e :: r3 =>
     (e = 'e' || e = 'E') &&
     (let r4 := match r3 with
                | '+' :: r => r
                | '-' :: r => r
                | r => r
      !r4.isEmpty && r4.all isDig))

/-- The master row used by the C1 counterexample: a PQ item. -/
def masterPQ : ExamItemMasterRow :=
  { namecode := "NC1", xml_value_type := some "PQ", result_code_oid := none }

/-- Master lookup used by the C1 theorems. -/
def mastersPQ : String → Option ExamItemMasterRow :=
  fun nc => if nc = "NC1" then some masterPQ else none

/-- The item-value row holding the raw value `1_0` for the C1
counterexample. -/
def rowUnderscore : ItemValueRow :=
  { item_value_id := 1, normalize_status := "RAW", value := none,
    namecode := some "NC1", raw_value := some "1_0" }

/-- C1 counterexample: the raw value `1_0` is not a real number with no
separators, yet the PQ branch accepts it (Python `float` allows
underscores between digits) and stores it: the dispatch does not error as
the claim states. -/
theorem c1_pq_accepts_underscores :
    normalize_item_value mastersPQ [] rowUnderscore = .ok "1_0" ∧
      spec_real_number_no_separators "1_0" = false ∧
      isPyFloat "1_0" = true := by
  exact ⟨by decide, by decide, by decide⟩

/-- The code-system lookup result as the amended claim words it: requires
a non-empty oid and yields the `normalized_code` of the first variant in
canonical-first, priority, id order matching `raw_value` exactly among the
active rows. -/
def spec_code_result (variants : List NormVariant) (oid raw : String) :
    Option String :=
  if oid = "" then none
  else
    ((sortByLt variantLt (variants.filter (fun v =>
      v.result_code_oid == oid &&
      v.raw_value_utf8 == raw &&
      v.is_active == 1))).head?).map (fun v => v.normalized_code)

/-- The stored value for one selected row as the amended claim words it:
empty or ST type copies the raw value as-is (error when NULL); PQ strips
once, then requires a value accepted by Python float parsing and stores
the stripped string; CD — and CO when the oid is present — resolve through
the variant dictionary; anything else errors.  `none` means ERROR. -/
def spec_normalized_value (master : ExamItemMasterRow)
    (variants : List NormVariant) (row : ItemValueRow) : Option String :=
  let t := pyUpper (pyStrip (master.xml_value_type.getD ""))
  let oid := pyStrip (master.result_code_oid.getD "")
  let raw := row.raw_value.getD ""
  if t = "" ∨ t = "ST" then row.raw_value
  else if t = "PQ" then
    let v := pyStrip raw
    if v = "" then none
    else if isPyFloat v then some v
    else none
  else if t = "CD" ∨ t = "CO" then spec_code_result variants oid raw
  else none

theorem outcome_normalize_code_like (variants : List NormVariant)
    (ty oid raw : String) :
    outcomeValue (normalize_code_like variants ty oid raw)
      = spec_code_result variants oid raw := by
  unfold normalize_code_like spec_code_result
  by_cases h : oid = ""
  · simp [h, outcomeValue]
  · simp only [if_neg h]
    unfold lookup_code_like
    cases hh : (sortByLt variantLt (variants.filter (fun v =>
        v.result_code_oid == oid &&
        v.raw_value_utf8 == raw &&
        v.is_active == 1))).head? with
    | none => simp [hh, outcomeValue]
    | some hit => simp [hh, outcomeValue]

theorem outcome_dispatch (variants : List NormVariant) (t oid : String)
    (rawOpt : Option String) :
    outcomeValue (normalize_dispatch variants t oid rawOpt)
      = (if t = "" ∨ t = "ST" then rawOpt
         else if t = "PQ" then
           (let v := pyStrip (rawOpt.getD "")
            if v = "" then none
            else if isPyFloat v then some v else none)
         else if t = "CD" ∨ t = "CO" then
           spec_code_result variants oid (rawOpt.getD "")
         else none) := by
  unfold normalize_dispatch
  by_cases hST : t = "ST" ∨ t = ""
  · have hST2 : t = "" ∨ t = "ST" := hST.symm
    rw [if_pos hST, if_pos hST2]
    cases rawOpt with
    | none => simp [outcomeValue]
    | some s => simp [outcomeValue]
  · have hST2 : ¬(t = "" ∨ t = "ST") := fun h => hST h.symm
    rw [if_neg hST, if_neg hST2]
    by_cases hPQ : t = "PQ"
    · rw [if_pos hPQ, if_pos hPQ]
      by_cases hv : pyStrip (rawOpt.getD "") = ""
      · simp [hv, outcomeValue]
      · simp only [if_neg hv]
        by_cases hf : isPyFloat (pyStrip (rawOpt.getD "")) = true
        · simp [hf, outcomeValue]
        · simp [hf, outcomeValue]
    · rw [if_neg hPQ, if_neg hPQ]
      by_cases hCD : t = "CD"
      · rw [if_pos hCD, if_pos (Or.inl hCD : t = "CD" ∨ t = "CO")]
        exact outcome_normalize_code_like variants "CD" oid (rawOpt.getD "")
      · rw [if_neg hCD]
        by_cases hCO : t = "CO"
        · rw [if_pos hCO, if_pos (Or.inr hCO : t = "CD" ∨ t = "CO")]
          exact outcome_normalize_code_like variants "CO" oid (rawOpt.getD "")
        · have hCDCO : ¬(t = "CD" ∨ t = "CO") := by
            intro h; rcases h with h | h
            · exact hCD h
            · exact hCO h
          rw [if_neg hCO, if_neg hCDCO]
          simp [outcomeValue]

/-- C1 (amended): every row selected by Normalize-Values has
`normalize_status` RAW and a NULL-or-empty `value`; and for such a row
whose namecode resolves in the item master, the stage stores exactly
`spec_normalized_value`: empty or ST copies `raw_value` as-is (ERROR when
NULL); PQ trims once and stores the trimmed string exactly when it is
non-empty and accepted by Python float parsing (which admits underscores
between digits, infinities and NaN); CD, and CO with a `result_code_oid`
present, store the `normalized_code` of the exact-match lookup in active
`norm_variants` ordered by `is_canonical` DESC, `priority` ASC,
`variant_id` ASC (ERROR on no match or missing oid); any other type is
ERROR; no trimming or tokenization happens beyond PQ's single strip. -/
theorem c1_normalize_dispatch_characterization
    (rows : List ItemValueRow) (limit : Int) (row : ItemValueRow)
    (masters : String → Option ExamItemMasterRow)
    (variants : List NormVariant) (master : ExamItemMasterRow)
    (hsel : row ∈ select_targets rows limit)
    (hnc : row.namecode.getD "" ≠ "")
    (hm : masters (row.namecode.getD "") = some master) :
    (row.normalize_status = "RAW" ∧ (row.value = none ∨ row.value = some "")) ∧
    outcomeValue (normalize_item_value masters variants row)
      = spec_normalized_value master variants row := by
  constructor
  · have h1 : row ∈ sortByLt (fun a b => decide (a.item_value_id < b.item_value_id))
        (rows.filter (fun r =>
          r.normalize_status == "RAW" &&
          (r.value == none || r.value == some ""))) :=
      List.mem_of_mem_take hsel
    have h2 := (List.mem_filter.1 ((mem_sortByLt _ _ _).1 h1)).2
    simp only [Bool.and_eq_true, Bool.or_eq_true, beq_iff_eq] at h2
    exact ⟨h2.1, h2.2⟩
  · have key : normalize_item_value masters variants row
        = normalize_dispatch variants
            (pyUpper (pyStrip (master.xml_value_type.getD "")))
            (pyStrip (master.result_code_oid.getD "")) row.raw_value := by
      simp only [normalize_item_value, hm]
      rw [if_neg hnc]
    rw [key, outcome_dispatch]
    rfl

/-- A CD master and one canonical variant for the C1 witness. -/
def masterCD : ExamItemMasterRow :=
  { namecode := "NC2", xml_value_type := some "CD",
    result_code_oid := some "1.2.3" }

/-- Master lookup for the C1 witness. -/
def mastersCD : String → Option ExamItemMasterRow :=
  fun nc => if nc = "NC2" then some masterCD else none

/-- The single dictionary variant of the C1 witness. -/
def variantNeg : NormVariant :=
  { variant_id := 5, result_code_oid := "1.2.3", raw_value_utf8 := "(-)",
    is_active := 1, is_canonical := 1, priority := 1,
    normalized_code := "0" }

/-- The selected CD row of the C1 witness. -/
def rowCD : ItemValueRow :=
  { item_value_id := 2, normalize_status := "RAW", value := some "",
    namecode := some "NC2", raw_value := some "(-)" }

/-- C1 witness: the characterization applied to a concrete selected CD row
resolved through one canonical variant. -/
theorem c1_normalize_dispatch_characterization_witness :
    (rowCD.normalize_status = "RAW" ∧
      (rowCD.value = none ∨ rowCD.value = some "")) ∧
    outcomeValue (normalize_item_value mastersCD [variantNeg] rowCD)
      = spec_normalized_value masterCD [variantNeg] rowCD :=
  c1_normalize_dispatch_characterization [rowCD] 10 rowCD mastersCD
    [variantNeg] masterCD (by decide) (by decide) (by decide)

/-! ## C5 — Encrypted-ZIP password trial
(`kenshin_lib/medi/zip_extract.py`, `extract_zip_to_temp`).

The filesystem/zipfile side effects are abstracted as an oracle `att`
giving the outcome of one `extractall` attempt with a given password
(`none` = no password): success, a `RuntimeError` with its message, a
`FileNotFoundError`, or any other exception. -/

/-- Outcome of one `zf.extractall(..., pwd=...)` call. -/
inductive AttemptOutcome where
  | success
  | runtimeErr (msg : String)
  | fnfErr (msg : String)
  | otherErr (msg : String)
deriving DecidableEq, Repr

/-- Outcome of `zipfile.ZipFile(zip_path)` and the encryption probe. -/
inductive ZipOpenOutcome where
  | opened (encrypted : Bool)
  | badZipFile (msg : String)
  | fnf (msg : String)
  | other (msg : String)
deriving DecidableEq, Repr

/-- The `ZipExtractResult` dataclass. -/
structure ZipExtractResult where
  ok : Bool
  error_code : Option String := none
  message : Option String := none
  used_password_text : Option String := none
deriving DecidableEq, Repr

def isSuccess : AttemptOutcome → Bool
  | .success => true
  | _ => false

def isFnf : AttemptOutcome → Bool
  | .fnfErr _ => true
  | _ => false

/-- The candidate-collection loop: strip, drop blanks, de-duplicate. -/
def collectCandidates (seen : List String) : List String → List (Option String)
  | [] => []
  | pw :: rest =>
    let pw2 := pyStrip pw
    if pw2 = "" then collectCandidates seen rest
    else if pw2 ∈ seen then collectCandidates seen rest
    else some pw2 :: collectCandidates (pw2 :: seen) rest

/-- The processed candidate sequence: cleaned candidates plus the final
no-password attempt. -/
def build_candidates (pwd_candidates : List String) : List (Option String) :=
  collectCandidates [] pwd_candidates ++ [none]

/-- The trial loop over the candidate sequence.  A `RuntimeError` —
whether bad-password, encrypted/required, or anything else — moves to the
next candidate remembering the error; a `FileNotFoundError` returns
`ZIP_LONG_PATH` at once; exhaustion returns `ZIP_PASSWORD` with the last
remembered error. -/
def try_candidates (att : Option String → AttemptOutcome)
    (last_err : Option String) (last_runtime_msg : String) :
    List (Option String) → ZipExtractResult
  | [] =>
    let msg := match last_err with
               | some e => pyTake 2000 e
               | none =>
                 if last_runtime_msg ≠ "" then pyTake 2000 last_runtime_msg
                 else "encrypted zip: password required"
    { ok := false, error_code := some "ZIP_PASSWORD", message := some msg }
  | pw :: rest =>
    match att pw with
    | .success => { ok := true, used_password_text := pw }
    | .runtimeErr m =>
      let lm := pyLower m
      if strHasSub lm "bad password" then try_candidates att (some m) m rest
      else if strHasSub lm "password required" || strHasSub lm "encrypted" then
        try_candidates att (some m) m rest
      else try_candidates att (some m) m rest
    | .fnfErr m =>
      { ok := false, error_code := some "ZIP_LONG_PATH",
        message := some (pyTake 2000 m) }
    | .otherErr m => try_candidates att (some m) last_runtime_msg rest

/-- `extract_zip_to_temp`: unencrypted archives extract directly (errors
fall through to the outer handlers); encrypted ones run the trial loop;
open failures map to `ZIP_UNEXPECTED` / `ZIP_LONG_PATH`. -/
def extract_zip_to_temp (openO : ZipOpenOutcome)
    (att : Option String → AttemptOutcome)
    (pwd_candidates : List String) : ZipExtractResult :=
  match openO with
  | .badZipFile m =>
    { ok := false, error_code := some "ZIP_UNEXPECTED",
      message := some ("File is not a zip file: " ++ m) }
  | .fnf m =>
    { ok := false, error_code := some "ZIP_LONG_PATH",
      message := some (pyTake 2000 m) }
  | .other m =>
    { ok := false, error_code := some "ZIP_UNEXPECTED",
      message := some (pyTake 2000 m) }
  | .opened encrypted =>
    if !encrypted then
      match att none with
      | .success => { ok := true }
      | .fnfErr m =>
        { ok := false, error_code := some "ZIP_LONG_PATH",
          message := some (pyTake 2000 m) }
      | .runtimeErr m =>
        { ok := false, error_code := some "ZIP_UNEXPECTED",
          message := some (pyTake 2000 m) }
      | .otherErr m =>
        { ok := false, error_code := some "ZIP_UNEXPECTED",
          message := some (pyTake 2000 m) }
    else try_candidates att none "" (build_candidates pwd_candidates)

/-- Step 1 of `zip_import_phase` on a failed extraction:
`error_code = ext_res.error_code or "ZIP_UNEXPECTED"` under
`structure_status = "ERROR"`. -/
def import_error_code (res : ZipExtractResult) : String :=
  (pyOrOpt res.error_code (some "ZIP_UNEXPECTED")).getD "ZIP_UNEXPECTED"

/-- The candidate sequence as the claim words it: the trimmed, non-empty,
first-occurrence-de-duplicated candidates in order, followed by one final
no-password attempt. -/
def spec_candidates (pwd : List String) : List (Option String) :=
  (dedupKeepFirst [] ((pwd.map pyStrip).filter (fun s => s ≠ ""))).map some
    ++ [none]

theorem collectCandidates_eq_dedup (l : List String) :
    ∀ seen, collectCandidates seen l =
      (dedupKeepFirst seen ((l.map pyStrip).filter (fun s => s ≠ ""))).map some := by
  induction l with
  | nil => intro seen; rfl
  | cons pw rest ih =>
    intro seen
    simp only [collectCandidates, List.map_cons, List.filter_cons]
    by_cases hb : pyStrip pw = ""
    · simp [hb, ih]
    · have hd : (decide ¬pyStrip pw = "") = true := by simp [hb]
      simp only [if_neg hb, hd, dedupKeepFirst]
      by_cases hs : pyStrip pw ∈ seen
      · simp [hs, ih]
      · simp [hs, ih]

theorem try_candidates_all_fail (att : Option String → AttemptOutcome)
    (l : List (Option String))
    (h : ∀ p ∈ l, isSuccess (att p) = false ∧ isFnf (att p) = false) :
    ∀ le lr, (try_candidates att le lr l).ok = false ∧
      (try_candidates att le lr l).error_code = some "ZIP_PASSWORD" := by
  induction l with
  | nil => intro le lr; exact ⟨rfl, rfl⟩
  | cons p rest ih =>
    intro le lr
    have hp := h p (List.mem_cons_self p rest)
    have hrest : ∀ q ∈ rest, isSuccess (att q) = false ∧ isFnf (att q) = false :=
      fun q hq => h q (List.mem_cons_of_mem p hq)
    cases hatt : att p with
    | success => rw [hatt] at hp; simp [isSuccess] at hp
    | fnfErr m => rw [hatt] at hp; simp [isFnf] at hp
    | runtimeErr m =>
      simp only [try_candidates, hatt]
      split
      · exact ih hrest _ _
      · split
        · exact ih hrest _ _
        · exact ih hrest _ _
    | otherErr m =>
      simp only [try_candidates, hatt]
      exact ih hrest _ _

theorem try_candidates_first_fnf (att : Option String → AttemptOutcome)
    (l₁ : List (Option String))
    (h₁ : ∀ q ∈ l₁, isSuccess (att q) = false ∧ isFnf (att q) = false) :
    ∀ le lr (p : Option String) (l₂ : List (Option String)) (m : String),
      att p = .fnfErr m →
      try_candidates att le lr (l₁ ++ p :: l₂)
        = { ok := false, error_code := some "ZIP_LONG_PATH",
            message := some (pyTake 2000 m) } := by
  induction l₁ with
  | nil =>
    intro le lr p l₂ m hm
    simp only [List.nil_append, try_candidates, hm]
  | cons q rest ih =>
    intro le lr p l₂ m hm
    have hq := h₁ q (List.mem_cons_self q rest)
    have hrest : ∀ r ∈ rest, isSuccess (att r) = false ∧ isFnf (att r) = false :=
      fun r hr => h₁ r (List.mem_cons_of_mem q hr)
    cases hatt : att q with
    | success => rw [hatt] at hq; simp [isSuccess] at hq
    | fnfErr mq => rw [hatt] at hq; simp [isFnf] at hq
    | runtimeErr mq =>
      simp only [List.cons_append, try_candidates, hatt]
      split
      · exact ih hrest _ _ p l₂ m hm
      · split
        · exact ih hrest _ _ p l₂ m hm
        · exact ih hrest _ _ p l₂ m hm
    | otherErr mq =>
      simp only [List.cons_append, try_candidates, hatt]
      exact ih hrest _ _ p l₂ m hm

theorem try_candidates_first_success (att : Option String → AttemptOutcome)
    (l₁ : List (Option String))
    (h₁ : ∀ q ∈ l₁, isSuccess (att q) = false ∧ isFnf (att q) = false) :
    ∀ le lr (p : Option String) (l₂ : List (Option String)),
      att p = .success →
      try_candidates att le lr (l₁ ++ p :: l₂)
        = { ok := true, used_password_text := p } := by
  induction l₁ with
  | nil =>
    intro le lr p l₂ hm
    simp only [List.nil_append, try_candidates, hm]
  | cons q rest ih =>
    intro le lr p l₂ hm
    have hq := h₁ q (List.mem_cons_self q rest)
    have hrest : ∀ r ∈ rest, isSuccess (att r) = false ∧ isFnf (att r) = false :=
      fun r hr => h₁ r (List.mem_cons_of_mem q hr)
    cases hatt : att q with
    | success => rw [hatt] at hq; simp [isSuccess] at hq
    | fnfErr mq => rw [hatt] at hq; simp [isFnf] at hq
    | runtimeErr mq =>
      simp only [List.cons_append, try_candidates, hatt]
      split
      · exact ih hrest _ _ p l₂ hm
      · split
        · exact ih hrest _ _ p l₂ hm
        · exact ih hrest _ _ p l₂ hm
    | otherErr mq =>
      simp only [List.cons_append, try_candidates, hatt]
      exact ih hrest _ _ p l₂ hm

/-- C5: for an encrypted archive, (1) the processed sequence is the
trimmed, de-duplicated, non-empty candidates followed by one final
no-password attempt; (2) when every attempt fails without a
file-not-found, the result is not ok with error_code ZIP_PASSWORD and the
receipt written for the run carries ERROR / ZIP_PASSWORD, so a later run
can retry; (3) the first file-not-found among otherwise failing attempts
returns ZIP_LONG_PATH at once; (4) the first succeeding candidate — for
instance one newly added for a later run — yields ok with that
password. -/
theorem c5_password_trial (att : Option String → AttemptOutcome)
    (cs : List String) :
    build_candidates cs = spec_candidates cs ∧
    ((∀ p ∈ build_candidates cs,
        isSuccess (att p) = false ∧ isFnf (att p) = false) →
      (extract_zip_to_temp (.opened true) att cs).ok = false ∧
      (extract_zip_to_temp (.opened true) att cs).error_code
          = some "ZIP_PASSWORD" ∧
      import_error_code (extract_zip_to_temp (.opened true) att cs)
          = "ZIP_PASSWORD") ∧
    (∀ (l₁ : List (Option String)) (p : Option String)
        (l₂ : List (Option String)) (m : String),
      build_candidates cs = l₁ ++ p :: l₂ →
      (∀ q ∈ l₁, isSuccess (att q) = false ∧ isFnf (att q) = false) →
      att p = .fnfErr m →
      extract_zip_to_temp (.opened true) att cs
        = { ok := false, error_code := some "ZIP_LONG_PATH",
            message := some (pyTake 2000 m) }) ∧
    (∀ (l₁ : List (Option String)) (p : Option String)
        (l₂ : List (Option String)),
      build_candidates cs = l₁ ++ p :: l₂ →
      (∀ q ∈ l₁, isSuccess (att q) = false ∧ isFnf (att q) = false) →
      att p = .success →
      extract_zip_to_temp (.opened true) att cs
        = { ok := true, used_password_text := p }) := by
  have hext : extract_zip_to_temp (.opened true) att cs
      = try_candidates att none "" (build_candidates cs) := rfl
  refine ⟨?_, ?_, ?_, ?_⟩
  · unfold build_candidates spec_candidates
    rw [collectCandidates_eq_dedup cs []]
  · intro h
    rw [hext]
    obtain ⟨h1, h2⟩ := try_candidates_all_fail att (build_candidates cs) h none ""
    refine ⟨h1, h2, ?_⟩
    unfold import_error_code
    rw [h2]
    rfl
  · intro l₁ p l₂ m hsplit h₁ hm
    rw [hext, hsplit]
    exact try_candidates_first_fnf att l₁ h₁ none "" p l₂ m hm
  · intro l₁ p l₂ hsplit h₁ hm
    rw [hext, hsplit]
    exact try_candidates_first_success att l₁ h₁ none "" p l₂ hm

/-- The oracle for the C5 witness: only the newly added candidate pw2
opens the archive; every other attempt is a bad-password RuntimeError. -/
def attRotate : Option String → AttemptOutcome :=
  fun p => if p = some "pw2" then .success
           else .runtimeErr "Bad password for file DATA/a.xml"

/-- C5 witness: with candidates pw1 then pw2, the first failing and the
second succeeding, extraction succeeds using pw2; and with pw1 alone every
attempt fails and the result is ERROR / ZIP_PASSWORD. -/
theorem c5_password_trial_witness :
    extract_zip_to_temp (.opened true) attRotate ["pw1", "pw2"]
      = { ok := true, used_password_text := some "pw2" } ∧
    (extract_zip_to_temp (.opened true) attRotate ["pw1"]).error_code
      = some "ZIP_PASSWORD" :=
  ⟨(c5_password_trial attRotate ["pw1", "pw2"]).2.2.2
      [some "pw1"] (some "pw2") [none] (by decide)
      (by
        intro q hq
        have hq2 : q = some "pw1" := by
          have : q ∈ [some "pw1"] := hq
          simpa using this
        subst hq2
        exact ⟨by decide, by decide⟩)
      (by decide),
   ((c5_password_trial attRotate ["pw1"]).2.1
      (by
        intro p hp
        have hp2 : p = some "pw1" ∨ p = none := by
          have : p ∈ build_candidates ["pw1"] := hp
          rw [show build_candidates ["pw1"] = [some "pw1", none] from by decide]
            at this
          simpa using this
        rcases hp2 with h | h <;> subst h <;> exact ⟨by decide, by decide⟩)).2.1⟩

/-! ## C2 — Stage F re-ingestion determinism
(`scripts/medi_zip_import.py`, `zip_import_phase` / `process_xmls_in_zip`,
and `kenshin_lib/medi/db_medi.py`, `db_upsert_zip_receipt`,
`db_insert_zip_receipt_run`, `db_upsert_xml_receipt`,
`db_insert_xml_receipt_run`).

The two message digests (`sha256_file` on member bytes, `sha256_text` on
inner paths) are abstracted as function parameters `hash` and `hashText`;
the well-formedness probe `ET.parse` is a function from content to an
optional parse-error message.  Timestamp columns (`*_seen_at`,
`created_at`) and the human-readable `structure_message` join are outside
the model.  The schema is modelled with every optional column present
(`db_has_column` true). -/

/-- `_norm_inner_path`: backslashes to slashes, leading slashes stripped. -/
def norm_inner_path (p : String) : String :=
  ⟨(p.data.map (fun c => if c = '\\' then '/' else c)).dropWhile (fun c => c = '/')⟩

/-- `_ensure_inner_sha`: use the supplied digest when non-blank, else
digest the normalised path. -/
def ensure_inner_sha (hashText : String → String) (inner_path : String)
    (inner_sha : Option String) : String :=
  let v := pyStrip (inner_sha.getD "")
  if v = "" then hashText (norm_inner_path inner_path) else v

/-- One file of the extracted archive: root-relative path, content, and
its stat metadata. -/
structure ArchiveFile where
  path : List String
  content : String
  size : Nat
  mtime : String
deriving DecidableEq, Repr

/-- One ZIP presented to Stage F, with its facility context, digest, the
extracted tree, and the (input-determined) extraction outcome. -/
structure ZipInput where
  zipSha : String
  zip_name : String
  zip_path : String
  facility_folder_name : String
  facility_code : String
  facility_name : String
  dirs : List (List String)
  files : List ArchiveFile
  ext_res : ZipExtractResult
deriving DecidableEq, Repr

/-- The directory/file tree of the extraction. -/
def treeOf (z : ZipInput) : ExtractedTree :=
  ⟨z.dirs, z.files.map (fun f => f.path)⟩

/-- One row of `medi_zip_receipts`. -/
structure ZipReceipt where
  zip_receipt_id : Nat
  zip_sha256 : String
  run_id : Nat
  first_seen_run_id : Nat
  last_seen_run_id : Nat
  facility_folder_name : String
  facility_code : String
  facility_name : String
  zip_name : String
  zip_path : String
  structure_status : String
  error_code : Option String
  error_message : Option String
  data_dir_count : Option Nat
  data_xml_count : Option Nat
deriving DecidableEq, Repr

/-- One row of `medi_zip_receipt_runs`. -/
structure ZipRun where
  run_id : Nat
  zip_receipt_id : Nat
  zip_sha256 : String
  action : String
  message : Option String
deriving DecidableEq, Repr

/-- One row of `medi_xml_receipts`. -/
structure XmlReceipt where
  xml_receipt_id : Nat
  xml_sha256 : String
  zip_sha256 : String
  zip_inner_path : String
  zip_inner_path_sha256 : String
  file_size : Option Nat
  file_mtime : Option String
  status : String
  error_code : Option String
  error_message : Option String
  facility_code : Option String
  facility_name : Option String
  first_seen_run_id : Nat
  last_seen_run_id : Nat
deriving DecidableEq, Repr

/-- One row of `medi_xml_receipt_runs`. -/
structure XmlRun where
  run_id : Nat
  xml_sha256 : String
  xml_receipt_id : Option Nat
  action : String
  message : Option String
deriving DecidableEq, Repr

/-- The `work_other` database state touched by Stage F. -/
structure MediDb where
  zipReceipts : List ZipReceipt
  zipRuns : List ZipRun
  xmlReceipts : List XmlReceipt
  xmlRuns : List XmlRun
  nextZipReceiptId : Nat
  nextXmlReceiptId : Nat
deriving DecidableEq, Repr

/-- `db_get_zip_receipt_id_by_sha`. -/
def db_get_zip_receipt_id_by_sha (db : MediDb) (sha : String) : Option Nat :=
  (db.zipReceipts.find? (fun r => r.zip_sha256 == sha)).map
    (fun r => r.zip_receipt_id)

/-- `db_upsert_zip_receipt`: insert keyed on the unique `zip_sha256`; on
duplicate update everything but the id, `zip_sha256` and the first-seen
columns; return the row id (`LAST_INSERT_ID`). -/
def db_upsert_zip_receipt (db : MediDb) (run_id : Nat)
    (facility_folder_name facility_code facility_name
      zip_name zip_path zip_sha256 : String)
    (structure_status : String) (error_code error_message : Option String)
    (data_dir_count data_xml_count : Option Nat) : MediDb × Nat :=
  let em := clip_text error_message 8000
  match db.zipReceipts.find? (fun r => r.zip_sha256 == zip_sha256) with
  | some old =>
    ({ db with zipReceipts := db.zipReceipts.map (fun r =>
        if r.zip_sha256 == zip_sha256 then
          { r with
            run_id := run_id
            last_seen_run_id := run_id
            facility_folder_name := facility_folder_name
            facility_code := facility_code
            facility_name := facility_name
            zip_name := zip_name
            zip_path := zip_path
            structure_status := structure_status
            error_code := error_code
            error_message := em
            data_dir_count := data_dir_count
            data_xml_count := data_xml_count }
        else r) }, old.zip_receipt_id)
  | none =>
    ({ db with
        zipReceipts := db.zipReceipts ++ [{
          zip_receipt_id := db.nextZipReceiptId
          zip_sha256 := zip_sha256
          run_id := run_id
          first_seen_run_id := run_id
          last_seen_run_id := run_id
          facility_folder_name := facility_folder_name
          facility_code := facility_code
          facility_name := facility_name
          zip_name := zip_name
          zip_path := zip_path
          structure_status := structure_status
          error_code := error_code
          error_message := em
          data_dir_count := data_dir_count
          data_xml_count := data_xml_count }]
        nextZipReceiptId := db.nextZipReceiptId + 1 }, db.nextZipReceiptId)

/-- `db_insert_zip_receipt_run`: insert, updating in place on a duplicate
`(run_id, zip_receipt_id)` key. -/
def db_insert_zip_receipt_run (db : MediDb) (run_id zip_receipt_id : Nat)
    (zip_sha256 action : String) (message : Option String) : MediDb :=
  let msg := clip_text message 4000
  if db.zipRuns.any (fun r =>
      r.run_id == run_id && r.zip_receipt_id == zip_receipt_id) then
    { db with zipRuns := db.zipRuns.map (fun r =>
        if r.run_id == run_id && r.zip_receipt_id == zip_receipt_id then
          { r with zip_receipt_id := zip_receipt_id, action := action,
                   message := msg }
        else r) }
  else
    { db with zipRuns := db.zipRuns ++
        [{ run_id := run_id, zip_receipt_id := zip_receipt_id,
           zip_sha256 := zip_sha256, action := action, message := msg }] }

/-- `db_get_xml_receipt_id_by_sha`. -/
def db_get_xml_receipt_id_by_sha (db : MediDb) (sha : String) : Option Nat :=
  (db.xmlReceipts.find? (fun r => r.xml_sha256 == sha)).map
    (fun r => r.xml_receipt_id)

/-- `db_upsert_xml_receipt`: insert keyed on the unique `xml_sha256`; on
duplicate update the seen/stat/status/facility columns and the inner-path
digest, preserving `zip_sha256`, `zip_inner_path` and the first-seen
columns; return the row id. -/
def db_upsert_xml_receipt (hashText : String → String) (db : MediDb)
    (run_id : Nat) (zip_sha256 zip_inner_path : String)
    (zip_inner_path_sha256 : Option String) (xml_sha256 : String)
    (file_size : Option Nat) (file_mtime : Option String) (status : String)
    (error_code error_message : Option String)
    (facility_code facility_name : Option String) : MediDb × Nat :=
  let inner_norm := norm_inner_path zip_inner_path
  let inner_sha := ensure_inner_sha hashText inner_norm zip_inner_path_sha256
  let em := clip_text error_message 8000
  match db.xmlReceipts.find? (fun r => r.xml_sha256 == xml_sha256) with
  | some old =>
    ({ db with xmlReceipts := db.xmlReceipts.map (fun r =>
        if r.xml_sha256 == xml_sha256 then
          { r with
            last_seen_run_id := run_id
            zip_inner_path_sha256 := inner_sha
            file_size := file_size
            file_mtime := file_mtime
            status := status
            error_code := error_code
            error_message := em
            facility_code := facility_code
            facility_name := facility_name }
        else r) }, old.xml_receipt_id)
  | none =>
    ({ db with
        xmlReceipts := db.xmlReceipts ++ [{
          xml_receipt_id := db.nextXmlReceiptId
          xml_sha256 := xml_sha256
          zip_sha256 := zip_sha256
          zip_inner_path := inner_norm
          zip_inner_path_sha256 := inner_sha
          file_size := file_size
          file_mtime := file_mtime
          status := status
          error_code := error_code
          error_message := em
          facility_code := facility_code
          facility_name := facility_name
          first_seen_run_id := run_id
          last_seen_run_id := run_id }]
        nextXmlReceiptId := db.nextXmlReceiptId + 1 }, db.nextXmlReceiptId)

/-- `db_insert_xml_receipt_run`: resolve the receipt id by digest and
insert, updating in place on a duplicate `(run_id, xml_sha256)` key. -/
def db_insert_xml_receipt_run (db : MediDb) (run_id : Nat)
    (xml_sha256 action : String) (message : Option String) : MediDb :=
  let xml_receipt_id := db_get_xml_receipt_id_by_sha db xml_sha256
  let msg := clip_text message 4000
  if db.xmlRuns.any (fun r =>
      r.run_id == run_id && r.xml_sha256 == xml_sha256) then
    { db with xmlRuns := db.xmlRuns.map (fun r =>
        if r.run_id == run_id && r.xml_sha256 == xml_sha256 then
          { r with xml_receipt_id := xml_receipt_id, action := action,
                   message := msg }
        else r) }
  else
    { db with xmlRuns := db.xmlRuns ++
        [{ run_id := run_id, xml_sha256 := xml_sha256,
           xml_receipt_id := xml_receipt_id, action := action,
           message := msg }] }

/-- The status/error triple of one inventoried XML: the optional
well-formed check (`ET.parse`) leaves PENDING on success and turns parse
failures into ERROR / XML_PARSE with the clipped message. -/
def xmlRowStatus (wfCheck : Bool) (wf : String → Option String)
    (content : String) : String × Option String × Option String :=
  if wfCheck then
    match wf content with
    | some e => ("ERROR", some "XML_PARSE", some (pyTake 1000 e))
    | none => ("PENDING", none, none)
  else ("PENDING", none, none)

/-- The body of the `process_xmls_in_zip` loop for one XML member:
digest, NEW/SEEN decision, optional well-formed check, receipt upsert and
run logging. -/
def processOneXml (hash hashText : String → String) (run_id : Nat)
    (z : ZipInput) (wfCheck : Bool) (wf : String → Option String)
    (db : MediDb) (f : ArchiveFile) : MediDb :=
  let zip_inner_path := pathStr f.path
  let zip_inner_path_sha256 := hashText zip_inner_path
  let xml_sha := hash f.content
  let existed := db_get_xml_receipt_id_by_sha db xml_sha
  let action := if existed.isNone then "NEW" else "SEEN"
  let st := xmlRowStatus wfCheck wf f.content
  let db1 := (db_upsert_xml_receipt hashText db run_id z.zipSha
    zip_inner_path (some zip_inner_path_sha256) xml_sha
    (some f.size) (some f.mtime) st.1 st.2.1 st.2.2
    (some z.facility_code) (some z.facility_name)).1
  let msg := if st.1 == "ERROR" then
               match st.2.1 with
               | some ec => some (ec ++ ":" ++ (st.2.2.getD ""))
               | none => some (st.2.2.getD "error")
             else none
  db_insert_xml_receipt_run db1 run_id xml_sha action msg

/-- The XML members `process_xmls_in_zip` inventories: under the DATA
directories when at least one exists, anywhere otherwise, in path order. -/
def zipXmlFiles (z : ZipInput) : List ArchiveFile :=
  let dataDirs := find_data_dirs (treeOf z)
  if 1 ≤ dataDirs.length then
    sortByLt (fun a b => pathLt a.path b.path)
      (dataDirs.flatMap (fun d =>
        z.files.filter (fun f => underDir d f.path && isXmlName f.path)))
  else
    sortByLt (fun a b => pathLt a.path b.path)
      (z.files.filter (fun f => isXmlName f.path))

/-- `process_xmls_in_zip`. -/
def process_xmls_in_zip (hash hashText : String → String) (run_id : Nat)
    (z : ZipInput) (wfCheck : Bool) (wf : String → Option String)
    (db : MediDb) : MediDb :=
  (zipXmlFiles z).foldl (processOneXml hash hashText run_id z wfCheck wf) db

/-- The structure fields Stage F records for one zip: the structure check
on a successful extraction, ERROR with the extraction error code
otherwise. -/
def importSc (z : ZipInput) : StructOutcome :=
  if z.ext_res.ok then structure_check (treeOf z)
  else { structure_status := "ERROR",
         error_code := some (import_error_code z.ext_res),
         data_dir_count := none, data_xml_count := none }

/-- The `error_message` recorded for one zip:
`(ext_res.message or "")[:2000] or None` on a failed extraction. -/
def importErrMsg (z : ZipInput) : Option String :=
  if z.ext_res.ok then none
  else
    (let em := pyTake 2000 (z.ext_res.message.getD "")
     if em = "" then none else some em)

/-- The per-zip body of `zip_import_phase`: NEW/SEEN decision, extraction
and structure classification, receipt upsert, run insert, and — when
enabled and the structure is OK — the XML inventory.  Returns the state
and the `zip_receipt_id`. -/
def importZip (hash hashText : String → String) (run_id : Nat)
    (z : ZipInput) (xml_enabled wfCheck : Bool)
    (wf : String → Option String) (db : MediDb) : MediDb × Nat :=
  let existed := db_get_zip_receipt_id_by_sha db z.zipSha
  let action := if existed.isNone then "NEW" else "SEEN"
  let p := db_upsert_zip_receipt db run_id z.facility_folder_name
    z.facility_code z.facility_name z.zip_name z.zip_path z.zipSha
    (importSc z).structure_status (importSc z).error_code (importErrMsg z)
    (importSc z).data_dir_count (importSc z).data_xml_count
  let db2 := db_insert_zip_receipt_run p.1 run_id p.2 z.zipSha action none
  let db3 := if xml_enabled && ((importSc z).structure_status == "OK") then
               process_xmls_in_zip hash hashText run_id z wfCheck wf db2
             else db2
  (db3, p.2)

/-- Lookup a ZIP receipt by digest. -/
def lookupZipReceipt (db : MediDb) (sha : String) : Option ZipReceipt :=
  db.zipReceipts.find? (fun r => r.zip_sha256 == sha)

/-- Lookup an XML receipt by digest. -/
def lookupXmlReceipt (db : MediDb) (h : String) : Option XmlReceipt :=
  db.xmlReceipts.find? (fun r => r.xml_sha256 == h)

/-- The `zip_receipt_runs` rows belonging to one zip digest. -/
def zipRunsFor (db : MediDb) (sha : String) : List ZipRun :=
  db.zipRuns.filter (fun r => r.zip_sha256 == sha)

/-- The run-independent content of an XML receipt: every column except
`last_seen_run_id` (timestamps are outside the model). -/
structure XmlProj where
  xml_receipt_id : Nat
  xml_sha256 : String
  zip_sha256 : String
  zip_inner_path : String
  zip_inner_path_sha256 : String
  file_size : Option Nat
  file_mtime : Option String
  status : String
  error_code : Option String
  error_message : Option String
  facility_code : Option String
  facility_name : Option String
  first_seen_run_id : Nat
deriving DecidableEq, Repr

/-- Project an XML receipt onto its run-independent content. -/
def xmlProj (r : XmlReceipt) : XmlProj :=
  { xml_receipt_id := r.xml_receipt_id
    xml_sha256 := r.xml_sha256
    zip_sha256 := r.zip_sha256
    zip_inner_path := r.zip_inner_path
    zip_inner_path_sha256 := r.zip_inner_path_sha256
    file_size := r.file_size
    file_mtime := r.file_mtime
    status := r.status
    error_code := r.error_code
    error_message := r.error_message
    facility_code := r.facility_code
    facility_name := r.facility_name
    first_seen_run_id := r.first_seen_run_id }

theorem find?_map_other (p q : α → Bool) (g : α → α)
    (hdis : ∀ a, p a = true → q a = false)
    (hq : ∀ a, q (g a) = q a) (l : List α) :
    (l.map (fun r => if p r then g r else r)).find? q = l.find? q := by
  induction l with
  | nil => rfl
  | cons x xs ih =>
    by_cases hx : p x = true
    · have hqx : q x = false := hdis x hx
      have hqgx : q (g x) = false := by rw [hq]; exact hqx
      simp [List.find?_cons, hx, hqx, hqgx, ih]
    · have hx2 : p x = false := by
        cases hpx : p x
        · rfl
        · exact absurd hpx hx
      cases hqx : q x with
      | true => simp [List.find?_cons, hx2, hqx]
      | false => simp [List.find?_cons, hx2, hqx, ih]

theorem find?_append_single (p : α → Bool) (l : List α) (x : α) :
    (l ++ [x]).find? p =
      match l.find? p with
      | some y => some y
      | none => if p x then some x else none := by
  induction l with
  | nil =>
    simp only [List.nil_append, List.find?_nil, List.find?_cons]
    cases hpx : p x <;> simp [hpx]
  | cons y ys ih =>
    cases hpy : p y with
    | true => simp [List.find?_cons, hpy]
    | false => simp [List.find?_cons, hpy, ih]

/-- The XML receipt row present for digest `h` after the fold has
processed every carrier of `h`: identity and first-seen columns come from
the pre-existing row (or from the first carrier `ff` and the current run),
mutable columns from the last carrier `lf`. -/
def xmlRowClosed (hashText : String → String) (r : Nat) (z : ZipInput)
    (wfCheck : Bool) (wf : String → Option String) (h : String) (id : Nat)
    (prev : Option XmlReceipt) (ff lf : ArchiveFile) : XmlReceipt :=
  { xml_receipt_id := id
    xml_sha256 := match prev with
                  | some p => p.xml_sha256
                  | none => h
    zip_sha256 := match prev with
                  | some p => p.zip_sha256
                  | none => z.zipSha
    zip_inner_path := match prev with
                      | some p => p.zip_inner_path
                      | none => norm_inner_path (pathStr ff.path)
    zip_inner_path_sha256 :=
      ensure_inner_sha hashText (norm_inner_path (pathStr lf.path))
        (some (hashText (pathStr lf.path)))
    file_size := some lf.size
    file_mtime := some lf.mtime
    status := (xmlRowStatus wfCheck wf lf.content).1
    error_code := (xmlRowStatus wfCheck wf lf.content).2.1
    error_message := clip_text (xmlRowStatus wfCheck wf lf.content).2.2 8000
    facility_code := some z.facility_code
    facility_name := some z.facility_name
    first_seen_run_id := match prev with
                         | some p => p.first_seen_run_id
                         | none => r
    last_seen_run_id := r }

theorem db_insert_xml_receipt_run_frame (db : MediDb) (r : Nat)
    (s a : String) (m : Option String) :
    (db_insert_xml_receipt_run db r s a m).xmlReceipts = db.xmlReceipts ∧
    (db_insert_xml_receipt_run db r s a m).nextXmlReceiptId
        = db.nextXmlReceiptId ∧
    (db_insert_xml_receipt_run db r s a m).zipReceipts = db.zipReceipts ∧
    (db_insert_xml_receipt_run db r s a m).zipRuns = db.zipRuns ∧
    (db_insert_xml_receipt_run db r s a m).nextZipReceiptId
        = db.nextZipReceiptId := by
  unfold db_insert_xml_receipt_run
  split <;> exact ⟨rfl, rfl, rfl, rfl, rfl⟩

theorem db_upsert_xml_receipt_zip_frame (hashText : String → String)
    (db : MediDb) (r : Nat) (zs zip : String) (zips : Option String)
    (xs : String) (fs : Option Nat) (fm : Option String) (st : String)
    (ec em fc fn : Option String) :
    ((db_upsert_xml_receipt hashText db r zs zip zips xs fs fm st ec em
        fc fn).1).zipReceipts = db.zipReceipts ∧
    ((db_upsert_xml_receipt hashText db r zs zip zips xs fs fm st ec em
        fc fn).1).zipRuns = db.zipRuns ∧
    ((db_upsert_xml_receipt hashText db r zs zip zips xs fs fm st ec em
        fc fn).1).nextZipReceiptId = db.nextZipReceiptId ∧
    ((db_upsert_xml_receipt hashText db r zs zip zips xs fs fm st ec em
        fc fn).1).xmlRuns = db.xmlRuns := by
  unfold db_upsert_xml_receipt
  split <;> exact ⟨rfl, rfl, rfl, rfl⟩

theorem processOneXml_zip_frame (hash hashText : String → String) (r : Nat)
    (z : ZipInput) (wfCheck : Bool) (wf : String → Option String)
    (db : MediDb) (f : ArchiveFile) :
    (processOneXml hash hashText r z wfCheck wf db f).zipReceipts
        = db.zipReceipts ∧
    (processOneXml hash hashText r z wfCheck wf db f).zipRuns = db.zipRuns ∧
    (processOneXml hash hashText r z wfCheck wf db f).nextZipReceiptId
        = db.nextZipReceiptId := by
  unfold processOneXml
  obtain ⟨h1, _, h3, h4, h5⟩ := db_insert_xml_receipt_run_frame
    ((db_upsert_xml_receipt hashText db r z.zipSha (pathStr f.path)
      (some (hashText (pathStr f.path))) (hash f.content) (some f.size)
      (some f.mtime) (xmlRowStatus wfCheck wf f.content).1
      (xmlRowStatus wfCheck wf f.content).2.1
      (xmlRowStatus wfCheck wf f.content).2.2
      (some z.facility_code) (some z.facility_name)).1) r (hash f.content)
    (if (db_get_xml_receipt_id_by_sha db (hash f.content)).isNone then "NEW"
     else "SEEN")
    (if (xmlRowStatus wfCheck wf f.content).1 == "ERROR" then
       match (xmlRowStatus wfCheck wf f.content).2.1 with
       | some ec => some (ec ++ ":" ++ ((xmlRowStatus wfCheck wf f.content).2.2.getD ""))
       | none => some ((xmlRowStatus wfCheck wf f.content).2.2.getD "error")
     else none)
  obtain ⟨g1, g2, g3, _⟩ := db_upsert_xml_receipt_zip_frame hashText db r
    z.zipSha (pathStr f.path) (some (hashText (pathStr f.path)))
    (hash f.content) (some f.size) (some f.mtime)
    (xmlRowStatus wfCheck wf f.content).1
    (xmlRowStatus wfCheck wf f.content).2.1
    (xmlRowStatus wfCheck wf f.content).2.2
    (some z.facility_code) (some z.facility_name)
  exact ⟨by rw [h3, g1], by rw [h4, g2], by rw [h5, g3]⟩

theorem lookupXml_insert_run (db : MediDb) (r : Nat) (s a : String)
    (m : Option String) (h : String) :
    lookupXmlReceipt (db_insert_xml_receipt_run db r s a m) h
      = lookupXmlReceipt db h := by
  unfold lookupXmlReceipt
  rw [(db_insert_xml_receipt_run_frame db r s a m).1]

theorem xmlReceipts_length_insert_run (db : MediDb) (r : Nat) (s a : String)
    (m : Option String) :
    (db_insert_xml_receipt_run db r s a m).xmlReceipts.length
      = db.xmlReceipts.length := by
  rw [(db_insert_xml_receipt_run_frame db r s a m).1]

theorem lookupXml_processOne_same (hash hashText : String → String)
    (r : Nat) (z : ZipInput) (wfCheck : Bool) (wf : String → Option String)
    (db : MediDb) (f : ArchiveFile) :
    lookupXmlReceipt (processOneXml hash hashText r z wfCheck wf db f)
        (hash f.content)
      = some (xmlRowClosed hashText r z wfCheck wf (hash f.content)
          (match lookupXmlReceipt db (hash f.content) with
           | some p => p.xml_receipt_id
           | none => db.nextXmlReceiptId)
          (lookupXmlReceipt db (hash f.content)) f f) := by
  unfold processOneXml
  rw [lookupXml_insert_run]
  unfold db_upsert_xml_receipt lookupXmlReceipt
  cases hfind : db.xmlReceipts.find? (fun rr => rr.xml_sha256 == hash f.content) with
  | some old =>
    simp only [hfind]
    rw [find?_map_ite (fun rr => rr.xml_sha256 == hash f.content)
      (fun rr =>
        { rr with
          last_seen_run_id := r
          zip_inner_path_sha256 :=
            ensure_inner_sha hashText (norm_inner_path (pathStr f.path))
              (some (hashText (pathStr f.path)))
          file_size := some f.size
          file_mtime := some f.mtime
          status := (xmlRowStatus wfCheck wf f.content).1
          error_code := (xmlRowStatus wfCheck wf f.content).2.1
          error_message := clip_text (xmlRowStatus wfCheck wf f.content).2.2 8000
          facility_code := some z.facility_code
          facility_name := some z.facility_name })
      (fun a => rfl) db.xmlReceipts]
    rw [hfind]
    rfl
  | none =>
    simp only [hfind]
    rw [find?_append_single]
    rw [hfind]
    simp only [beq_self_eq_true, if_pos]
    rfl

theorem lookupXml_processOne_other (hash hashText : String → String)
    (r : Nat) (z : ZipInput) (wfCheck : Bool) (wf : String → Option String)
    (db : MediDb) (f : ArchiveFile) (h : String)
    (hne : h ≠ hash f.content) :
    lookupXmlReceipt (processOneXml hash hashText r z wfCheck wf db f) h
      = lookupXmlReceipt db h := by
  unfold processOneXml
  rw [lookupXml_insert_run]
  unfold db_upsert_xml_receipt lookupXmlReceipt
  cases hfind : db.xmlReceipts.find? (fun rr => rr.xml_sha256 == hash f.content) with
  | some old =>
    simp only [hfind]
    rw [find?_map_other (fun rr => rr.xml_sha256 == hash f.content)
      (fun rr => rr.xml_sha256 == h)
      (fun rr =>
        { rr with
          last_seen_run_id := r
          zip_inner_path_sha256 :=
            ensure_inner_sha hashText (norm_inner_path (pathStr f.path))
              (some (hashText (pathStr f.path)))
          file_size := some f.size
          file_mtime := some f.mtime
          status := (xmlRowStatus wfCheck wf f.content).1
          error_code := (xmlRowStatus wfCheck wf f.content).2.1
          error_message := clip_text (xmlRowStatus wfCheck wf f.content).2.2 8000
          facility_code := some z.facility_code
          facility_name := some z.facility_name })
      (fun a ha => by
        have : a.xml_sha256 = hash f.content := by
          simpa using ha
        simp [this, Ne.symm hne])
      (fun a => rfl) db.xmlReceipts]
  | none =>
    simp only [hfind]
    rw [find?_append_single]
    have : ((({ xml_receipt_id := db.nextXmlReceiptId
                xml_sha256 := hash f.content
                zip_sha256 := z.zipSha
                zip_inner_path := norm_inner_path (pathStr f.path)
                zip_inner_path_sha256 :=
                  ensure_inner_sha hashText (norm_inner_path (pathStr f.path))
                    (some (hashText (pathStr f.path)))
                file_size := some f.size
                file_mtime := some f.mtime
                status := (xmlRowStatus wfCheck wf f.content).1
                error_code := (xmlRowStatus wfCheck wf f.content).2.1
                error_message :=
                  clip_text (xmlRowStatus wfCheck wf f.content).2.2 8000
                facility_code := some z.facility_code
                facility_name := some z.facility_name
                first_seen_run_id := r
                last_seen_run_id := r } : XmlReceipt).xml_sha256 == h))
        = false := by
      simp [Ne.symm hne]
    rw [this]
    cases hdb : db.xmlReceipts.find? (fun rr => rr.xml_sha256 == h) <;> rfl

/-- The members of `files` whose content digests to `h`, in order. -/
def occursFiles (hash : String → String) (h : String)
    (files : List ArchiveFile) : List ArchiveFile :=
  files.filter (fun f => hash f.content == h)

theorem exists_head?_getLast? (l : List α) (hne : l ≠ []) :
    ∃ a b, l.head? = some a ∧ l.getLast? = some b := by
  induction l with
  | nil => exact absurd rfl hne
  | cons x xs ih =>
    cases xs with
    | nil => exact ⟨x, x, rfl, rfl⟩
    | cons y ys =>
      obtain ⟨a, b, ha, hb⟩ := ih (by simp)
      exact ⟨x, b, rfl, by rw [List.getLast?_cons_cons]; exact hb⟩

theorem lookupXml_fold_none (hash hashText : String → String) (r : Nat)
    (z : ZipInput) (wfCheck : Bool) (wf : String → Option String)
    (files : List ArchiveFile) :
    ∀ (db : MediDb) (h : String), occursFiles hash h files = [] →
      lookupXmlReceipt
          (files.foldl (processOneXml hash hashText r z wfCheck wf) db) h
        = lookupXmlReceipt db h := by
  induction files with
  | nil => intro db h _; rfl
  | cons f fs ih =>
    intro db h hocc
    by_cases hf : hash f.content = h
    · exfalso
      have : f ∈ occursFiles hash h (f :: fs) := by
        unfold occursFiles
        refine List.mem_filter.2 ⟨List.mem_cons_self f fs, ?_⟩
        simp [hf]
      rw [hocc] at this
      exact absurd this (List.not_mem_nil f)
    · have hocc2 : occursFiles hash h fs = [] := by
        unfold occursFiles at hocc ⊢
        rw [List.filter_cons] at hocc
        have : (hash f.content == h) = false := by simp [hf]
        rw [this] at hocc
        simpa using hocc
      simp only [List.foldl_cons]
      rw [ih (processOneXml hash hashText r z wfCheck wf db f) h hocc2,
        lookupXml_processOne_other hash hashText r z wfCheck wf db f h
          (fun hh => hf hh.symm)]

theorem xmlRowClosed_compose (hashText : String → String) (r : Nat)
    (z : ZipInput) (wfCheck : Bool) (wf : String → Option String)
    (h : String) (id : Nat) (prev : Option XmlReceipt)
    (f ff lf : ArchiveFile) :
    xmlRowClosed hashText r z wfCheck wf h id
        (some (xmlRowClosed hashText r z wfCheck wf h id prev f f)) ff lf
      = xmlRowClosed hashText r z wfCheck wf h id prev f lf := by
  cases prev <;> rfl

theorem lookupXml_fold_some (hash hashText : String → String) (r : Nat)
    (z : ZipInput) (wfCheck : Bool) (wf : String → Option String)
    (files : List ArchiveFile) :
    ∀ (db : MediDb) (h : String) (ff lf : ArchiveFile),
      (occursFiles hash h files).head? = some ff →
      (occursFiles hash h files).getLast? = some lf →
      ∃ id,
        lookupXmlReceipt
            (files.foldl (processOneXml hash hashText r z wfCheck wf) db) h
          = some (xmlRowClosed hashText r z wfCheck wf h id
              (lookupXmlReceipt db h) ff lf) ∧
        ∀ p, lookupXmlReceipt db h = some p → id = p.xml_receipt_id := by
  induction files with
  | nil => intro db h ff lf hh _; simp [occursFiles] at hh
  | cons f fs ih =>
    intro db h ff lf hhead hlast
    by_cases hf : hash f.content = h
    · have hocc : occursFiles hash h (f :: fs)
          = f :: occursFiles hash h fs := by
        unfold occursFiles
        simp [List.filter_cons, hf]
      rw [hocc] at hhead hlast
      have hff : f = ff := by
        simpa using hhead
      have hstep := lookupXml_processOne_same hash hashText r z wfCheck wf db f
      rw [hf] at hstep
      simp only [List.foldl_cons]
      by_cases h2 : occursFiles hash h fs = []
      · have hlf : lf = f := by
          rw [h2] at hlast
          simpa using hlast.symm
        refine ⟨(match lookupXmlReceipt db h with
                 | some p => p.xml_receipt_id
                 | none => db.nextXmlReceiptId), ?_, ?_⟩
        · rw [lookupXml_fold_none hash hashText r z wfCheck wf fs _ h h2,
            ← hff, hlf]
          exact hstep
        · intro p hp
          rw [hp]
      · obtain ⟨ff2, lf2, hh2, hl2⟩ := exists_head?_getLast? _ h2
        have hlast2 : lf2 = lf := by
          cases hocc2 : occursFiles hash h fs with
          | nil => exact absurd hocc2 h2
          | cons x xs =>
            rw [hocc2] at hl2
            rw [hocc2, List.getLast?_cons_cons] at hlast
            rw [hl2] at hlast
            simpa using hlast
        subst hlast2
        obtain ⟨id2, hid2, hid2p⟩ := ih
          (processOneXml hash hashText r z wfCheck wf db f) h ff2 lf2 hh2 hl2
        rw [hstep] at hid2p
        have hid2v : id2 = (match lookupXmlReceipt db h with
                            | some p => p.xml_receipt_id
                            | none => db.nextXmlReceiptId) :=
          hid2p _ rfl
        refine ⟨id2, ?_, ?_⟩
        · rw [hid2, hstep]
          rw [hid2v]
          rw [xmlRowClosed_compose, hff]
        · intro p hp
          rw [hid2v, hp]
    · have hocc : occursFiles hash h (f :: fs) = occursFiles hash h fs := by
        unfold occursFiles
        simp [List.filter_cons, hf]
      rw [hocc] at hhead hlast
      simp only [List.foldl_cons]
      obtain ⟨id, hid, hidp⟩ := ih
        (processOneXml hash hashText r z wfCheck wf db f) h ff lf hhead hlast
      have hother := lookupXml_processOne_other hash hashText r z wfCheck wf
        db f h (fun hh => hf hh.symm)
      rw [hother] at hid hidp
      exact ⟨id, hid, hidp⟩

theorem lookupXml_processOne_isSome (hash hashText : String → String)
    (r : Nat) (z : ZipInput) (wfCheck : Bool) (wf : String → Option String)
    (db : MediDb) (f : ArchiveFile) (h : String)
    (hs : (lookupXmlReceipt db h).isSome = true) :
    (lookupXmlReceipt (processOneXml hash hashText r z wfCheck wf db f)
        h).isSome = true := by
  by_cases hf : h = hash f.content
  · subst hf
    rw [lookupXml_processOne_same]
    rfl
  · rw [lookupXml_processOne_other hash hashText r z wfCheck wf db f h hf]
    exact hs

theorem xmlReceipts_length_processOne (hash hashText : String → String)
    (r : Nat) (z : ZipInput) (wfCheck : Bool) (wf : String → Option String)
    (db : MediDb) (f : ArchiveFile)
    (hpres : (lookupXmlReceipt db (hash f.content)).isSome = true) :
    (processOneXml hash hashText r z wfCheck wf db f).xmlReceipts.length
      = db.xmlReceipts.length := by
  unfold processOneXml
  rw [(db_insert_xml_receipt_run_frame _ _ _ _ _).1]
  unfold db_upsert_xml_receipt
  unfold lookupXmlReceipt at hpres
  cases hfind : db.xmlReceipts.find? (fun rr => rr.xml_sha256 == hash f.content) with
  | some old => simp [hfind]
  | none => rw [hfind] at hpres; simp at hpres

theorem xmlReceipts_length_fold (hash hashText : String → String) (r : Nat)
    (z : ZipInput) (wfCheck : Bool) (wf : String → Option String)
    (files : List ArchiveFile) :
    ∀ db : MediDb,
      (∀ f ∈ files, (lookupXmlReceipt db (hash f.content)).isSome = true) →
      (files.foldl (processOneXml hash hashText r z wfCheck wf)
          db).xmlReceipts.length = db.xmlReceipts.length := by
  induction files with
  | nil => intro db _; rfl
  | cons f fs ih =>
    intro db hpres
    simp only [List.foldl_cons]
    rw [ih _ (fun g hg => lookupXml_processOne_isSome hash hashText r z
      wfCheck wf db f _ (hpres g (List.mem_cons_of_mem f hg)))]
    exact xmlReceipts_length_processOne hash hashText r z wfCheck wf db f
      (hpres f (List.mem_cons_self f fs))

theorem fold_zip_frame (hash hashText : String → String) (r : Nat)
    (z : ZipInput) (wfCheck : Bool) (wf : String → Option String)
    (files : List ArchiveFile) :
    ∀ db : MediDb,
      (files.foldl (processOneXml hash hashText r z wfCheck wf)
          db).zipReceipts = db.zipReceipts ∧
      (files.foldl (processOneXml hash hashText r z wfCheck wf)
          db).zipRuns = db.zipRuns ∧
      (files.foldl (processOneXml hash hashText r z wfCheck wf)
          db).nextZipReceiptId = db.nextZipReceiptId := by
  induction files with
  | nil => intro db; exact ⟨rfl, rfl, rfl⟩
  | cons f fs ih =>
    intro db
    simp only [List.foldl_cons]
    obtain ⟨i1, i2, i3⟩ := ih (processOneXml hash hashText r z wfCheck wf db f)
    obtain ⟨s1, s2, s3⟩ := processOneXml_zip_frame hash hashText r z wfCheck wf db f
    exact ⟨by rw [i1, s1], by rw [i2, s2], by rw [i3, s3]⟩

/-- The fresh ZIP receipt inserted by the NEW path. -/
def zipReceiptNew (n r : Nat) (z : ZipInput) : ZipReceipt :=
  { zip_receipt_id := n
    zip_sha256 := z.zipSha
    run_id := r
    first_seen_run_id := r
    last_seen_run_id := r
    facility_folder_name := z.facility_folder_name
    facility_code := z.facility_code
    facility_name := z.facility_name
    zip_name := z.zip_name
    zip_path := z.zip_path
    structure_status := (importSc z).structure_status
    error_code := (importSc z).error_code
    error_message := clip_text (importErrMsg z) 8000
    data_dir_count := (importSc z).data_dir_count
    data_xml_count := (importSc z).data_xml_count }

/-- The `zip_receipt_runs` row appended for one run of one zip. -/
def zipRunRow (r n : Nat) (sha action : String) : ZipRun :=
  { run_id := r
    zip_receipt_id := n
    zip_sha256 := sha
    action := action
    message := none }

/-- The duplicate-key update applied to an existing ZIP receipt. -/
def zipReceiptUpd (r : Nat) (z : ZipInput) (old : ZipReceipt) : ZipReceipt :=
  { old with
    run_id := r
    last_seen_run_id := r
    facility_folder_name := z.facility_folder_name
    facility_code := z.facility_code
    facility_name := z.facility_name
    zip_name := z.zip_name
    zip_path := z.zip_path
    structure_status := (importSc z).structure_status
    error_code := (importSc z).error_code
    error_message := clip_text (importErrMsg z) 8000
    data_dir_count := (importSc z).data_dir_count
    data_xml_count := (importSc z).data_xml_count }

/-- The state after the receipt/run bookkeeping of a NEW import, before
the optional XML inventory. -/
def dbAfterNew (db0 : MediDb) (r : Nat) (z : ZipInput) : MediDb :=
  { db0 with
    zipReceipts := db0.zipReceipts ++ [zipReceiptNew db0.nextZipReceiptId r z]
    zipRuns := db0.zipRuns ++
      [zipRunRow r db0.nextZipReceiptId z.zipSha "NEW"]
    nextZipReceiptId := db0.nextZipReceiptId + 1 }

/-- The state after the receipt/run bookkeeping of a SEEN import, before
the optional XML inventory. -/
def dbAfterSeen (s : MediDb) (r : Nat) (z : ZipInput) (n : Nat) : MediDb :=
  { s with
    zipReceipts := s.zipReceipts.map (fun rr =>
      if rr.zip_sha256 == z.zipSha then zipReceiptUpd r z rr else rr)
    zipRuns := s.zipRuns ++ [zipRunRow r n z.zipSha "SEEN"] }

theorem importZip_new_char (hash hashText : String → String) (r : Nat)
    (z : ZipInput) (xe wfc : Bool) (wf : String → Option String)
    (db0 : MediDb)
    (hfind0 : db0.zipReceipts.find? (fun rr => rr.zip_sha256 == z.zipSha)
        = none)
    (hany : db0.zipRuns.any (fun row =>
        row.run_id == r && row.zip_receipt_id == db0.nextZipReceiptId)
        = false) :
    importZip hash hashText r z xe wfc wf db0
      = ((if xe && ((importSc z).structure_status == "OK") then
            process_xmls_in_zip hash hashText r z wfc wf (dbAfterNew db0 r z)
          else dbAfterNew db0 r z), db0.nextZipReceiptId) := by
  unfold importZip db_get_zip_receipt_id_by_sha db_upsert_zip_receipt
    db_insert_zip_receipt_run dbAfterNew zipReceiptNew zipRunRow
  rw [hfind0]
  simp only [Option.map_none', Option.isNone_none, if_pos]
  rw [hany]
  simp only [Bool.false_eq_true, if_neg, if_false]
  rfl

theorem importZip_seen_char (hash hashText : String → String) (r : Nat)
    (z : ZipInput) (xe wfc : Bool) (wf : String → Option String)
    (s : MediDb) (old : ZipReceipt)
    (hfind : s.zipReceipts.find? (fun rr => rr.zip_sha256 == z.zipSha)
        = some old)
    (hany : s.zipRuns.any (fun row =>
        row.run_id == r && row.zip_receipt_id == old.zip_receipt_id)
        = false) :
    importZip hash hashText r z xe wfc wf s
      = ((if xe && ((importSc z).structure_status == "OK") then
            process_xmls_in_zip hash hashText r z wfc wf
              (dbAfterSeen s r z old.zip_receipt_id)
          else dbAfterSeen s r z old.zip_receipt_id),
         old.zip_receipt_id) := by
  unfold importZip db_get_zip_receipt_id_by_sha db_upsert_zip_receipt
    db_insert_zip_receipt_run dbAfterSeen zipReceiptUpd zipRunRow
  rw [hfind]
  simp only [Option.map_some', Option.isNone_some]
  rw [hany]
  simp only [Bool.false_eq_true, if_neg, if_false]
  rfl

theorem xmlProj_reupsert (hashText : String → String) (ra rb : Nat)
    (z : ZipInput) (wfc : Bool) (wf : String → Option String) (h : String)
    (id : Nat) (prev : Option XmlReceipt) (ff ff2 lf : ArchiveFile) :
    xmlProj (xmlRowClosed hashText rb z wfc wf h id
        (some (xmlRowClosed hashText ra z wfc wf h id prev ff lf)) ff2 lf)
      = xmlProj (xmlRowClosed hashText ra z wfc wf h id prev ff lf) := by
  cases prev <;> rfl

/-- C2: ingesting the same ZIP twice with no input change — same bytes,
same extraction outcome, fresh run ids — yields the same
`zip_receipt_id`; the XML receipts are identical after both runs (same
rows under every digest, up to the `last_seen_run_id` bookkeeping column,
and no rows added); and the zip's `zip_receipt_runs` trail is exactly NEW
from the first run followed by SEEN from the second. -/
theorem c2_zip_reimport_deterministic
    (hash hashText : String → String) (r1 r2 : Nat) (z : ZipInput)
    (xml_enabled wfCheck : Bool) (wf : String → Option String)
    (db0 : MediDb)
    (hzip : lookupZipReceipt db0 z.zipSha = none)
    (hruns : ∀ row ∈ db0.zipRuns, row.zip_sha256 ≠ z.zipSha)
    (hfresh1 : ∀ row ∈ db0.zipRuns, row.run_id ≠ r1)
    (hfresh2 : ∀ row ∈ db0.zipRuns, row.run_id ≠ r2)
    (hr12 : r1 ≠ r2) :
    (importZip hash hashText r2 z xml_enabled wfCheck wf
        (importZip hash hashText r1 z xml_enabled wfCheck wf db0).1).2
      = (importZip hash hashText r1 z xml_enabled wfCheck wf db0).2 ∧
    (∀ h : String,
      (lookupXmlReceipt (importZip hash hashText r2 z xml_enabled wfCheck wf
          (importZip hash hashText r1 z xml_enabled wfCheck wf db0).1).1
          h).map xmlProj
        = (lookupXmlReceipt
            (importZip hash hashText r1 z xml_enabled wfCheck wf db0).1
            h).map xmlProj) ∧
    (importZip hash hashText r2 z xml_enabled wfCheck wf
        (importZip hash hashText r1 z xml_enabled wfCheck wf
          db0).1).1.xmlReceipts.length
      = (importZip hash hashText r1 z xml_enabled wfCheck wf
          db0).1.xmlReceipts.length ∧
    (zipRunsFor (importZip hash hashText r2 z xml_enabled wfCheck wf
        (importZip hash hashText r1 z xml_enabled wfCheck wf db0).1).1
        z.zipSha).map (fun row => (row.run_id, row.action))
      = [(r1, "NEW"), (r2, "SEEN")] := by
  unfold lookupZipReceipt at hzip
  have hany1 : db0.zipRuns.any (fun row =>
      row.run_id == r1 && row.zip_receipt_id == db0.nextZipReceiptId)
      = false := by
    rw [List.any_eq_false]
    intro row hrow
    simp [hfresh1 row hrow]
  have h1 := importZip_new_char hash hashText r1 z xml_enabled wfCheck wf
    db0 hzip hany1
  have hs1 : (importZip hash hashText r1 z xml_enabled wfCheck wf db0).1
      = (if xml_enabled && ((importSc z).structure_status == "OK") then
           process_xmls_in_zip hash hashText r1 z wfCheck wf
             (dbAfterNew db0 r1 z)
         else dbAfterNew db0 r1 z) := by rw [h1]
  have hid1 : (importZip hash hashText r1 z xml_enabled wfCheck wf db0).2
      = db0.nextZipReceiptId := by rw [h1]
  have hzr1 : (importZip hash hashText r1 z xml_enabled wfCheck wf
      db0).1.zipReceipts
      = db0.zipReceipts ++ [zipReceiptNew db0.nextZipReceiptId r1 z] := by
    rw [hs1]
    by_cases hc : (xml_enabled && ((importSc z).structure_status == "OK"))
        = true
    · rw [if_pos hc]
      unfold process_xmls_in_zip
      rw [(fold_zip_frame hash hashText r1 z wfCheck wf (zipXmlFiles z)
        (dbAfterNew db0 r1 z)).1]
      rfl
    · rw [if_neg hc]
      rfl
  have hrun1 : (importZip hash hashText r1 z xml_enabled wfCheck wf
      db0).1.zipRuns
      = db0.zipRuns ++ [zipRunRow r1 db0.nextZipReceiptId z.zipSha "NEW"] := by
    rw [hs1]
    by_cases hc : (xml_enabled && ((importSc z).structure_status == "OK"))
        = true
    · rw [if_pos hc]
      unfold process_xmls_in_zip
      rw [(fold_zip_frame hash hashText r1 z wfCheck wf (zipXmlFiles z)
        (dbAfterNew db0 r1 z)).2.1]
      rfl
    · rw [if_neg hc]
      rfl
  have hfindS1 : (importZip hash hashText r1 z xml_enabled wfCheck wf
      db0).1.zipReceipts.find? (fun rr => rr.zip_sha256 == z.zipSha)
      = some (zipReceiptNew db0.nextZipReceiptId r1 z) := by
    rw [hzr1, find?_append_single, hzip]
    simp [zipReceiptNew]
  have hany2 : (importZip hash hashText r1 z xml_enabled wfCheck wf
      db0).1.zipRuns.any (fun row =>
      row.run_id == r2 &&
      row.zip_receipt_id
        == (zipReceiptNew db0.nextZipReceiptId r1 z).zip_receipt_id)
      = false := by
    rw [hrun1, List.any_append]
    have hA : db0.zipRuns.any (fun row =>
        row.run_id == r2 &&
        row.zip_receipt_id
          == (zipReceiptNew db0.nextZipReceiptId r1 z).zip_receipt_id)
        = false := by
      rw [List.any_eq_false]
      intro row hrow
      simp [hfresh2 row hrow]
    rw [hA]
    simp [zipRunRow, hr12]
  have h2 := importZip_seen_char hash hashText r2 z xml_enabled wfCheck wf
    (importZip hash hashText r1 z xml_enabled wfCheck wf db0).1
    (zipReceiptNew db0.nextZipReceiptId r1 z) hfindS1 hany2
  have hs2 : (importZip hash hashText r2 z xml_enabled wfCheck wf
      (importZip hash hashText r1 z xml_enabled wfCheck wf db0).1).1
      = (if xml_enabled && ((importSc z).structure_status == "OK") then
           process_xmls_in_zip hash hashText r2 z wfCheck wf
             (dbAfterSeen
               (importZip hash hashText r1 z xml_enabled wfCheck wf db0).1
               r2 z (zipReceiptNew db0.nextZipReceiptId r1 z).zip_receipt_id)
         else dbAfterSeen
               (importZip hash hashText r1 z xml_enabled wfCheck wf db0).1
               r2 z (zipReceiptNew db0.nextZipReceiptId r1 z).zip_receipt_id) := by
    rw [h2]
  have hid2 : (importZip hash hashText r2 z xml_enabled wfCheck wf
      (importZip hash hashText r1 z xml_enabled wfCheck wf db0).1).2
      = (zipReceiptNew db0.nextZipReceiptId r1 z).zip_receipt_id := by
    rw [h2]
  refine ⟨?_, ?_, ?_, ?_⟩
  · rw [hid2, hid1]
    rfl
  · intro h
    by_cases hc : (xml_enabled && ((importSc z).structure_status == "OK"))
        = true
    · by_cases hocc : occursFiles hash h (zipXmlFiles z) = []
      · rw [hs2, if_pos hc]
        unfold process_xmls_in_zip
        rw [lookupXml_fold_none hash hashText r2 z wfCheck wf (zipXmlFiles z)
          _ h hocc]
        rfl
      · obtain ⟨ff, lf, hh, hl⟩ := exists_head?_getLast? _ hocc
        obtain ⟨id2, hid2E, hid2P⟩ := lookupXml_fold_some hash hashText r2 z
          wfCheck wf (zipXmlFiles z)
          (dbAfterSeen
            (importZip hash hashText r1 z xml_enabled wfCheck wf db0).1
            r2 z (zipReceiptNew db0.nextZipReceiptId r1 z).zip_receipt_id)
          h ff lf hh hl
        obtain ⟨id1, hid1E, _⟩ := lookupXml_fold_some hash hashText r1 z
          wfCheck wf (zipXmlFiles z) (dbAfterNew db0 r1 z) h ff lf hh hl
        have hs1look : lookupXmlReceipt
            (importZip hash hashText r1 z xml_enabled wfCheck wf db0).1 h
            = some (xmlRowClosed hashText r1 z wfCheck wf h id1
                (lookupXmlReceipt (dbAfterNew db0 r1 z) h) ff lf) := by
          rw [hs1, if_pos hc]
          unfold process_xmls_in_zip
          exact hid1E
        have hlookB2 : lookupXmlReceipt
            (dbAfterSeen
              (importZip hash hashText r1 z xml_enabled wfCheck wf db0).1
              r2 z (zipReceiptNew db0.nextZipReceiptId r1 z).zip_receipt_id) h
            = lookupXmlReceipt
                (importZip hash hashText r1 z xml_enabled wfCheck wf db0).1
                h := rfl
        have hid2v : id2 = id1 := by
          have := hid2P (xmlRowClosed hashText r1 z wfCheck wf h id1
              (lookupXmlReceipt (dbAfterNew db0 r1 z) h) ff lf)
            (by rw [hlookB2, hs1look])
          simpa [xmlRowClosed] using this
        rw [hs2, if_pos hc]
        unfold process_xmls_in_zip
        rw [hid2E, hlookB2, hs1look, hid2v]
        simp only [Option.map_some']
        exact congrArg some
          (xmlProj_reupsert hashText r1 r2 z wfCheck wf h id1
            (lookupXmlReceipt (dbAfterNew db0 r1 z) h) ff ff lf)
    · rw [hs2, if_neg hc, hs1, if_neg hc]
      rfl
  · by_cases hc : (xml_enabled && ((importSc z).structure_status == "OK"))
        = true
    · have hpres : ∀ f ∈ zipXmlFiles z,
          (lookupXmlReceipt
            (dbAfterSeen
              (importZip hash hashText r1 z xml_enabled wfCheck wf db0).1
              r2 z (zipReceiptNew db0.nextZipReceiptId r1 z).zip_receipt_id)
            (hash f.content)).isSome = true := by
        intro f hf
        have hne : occursFiles hash (hash f.content) (zipXmlFiles z) ≠ [] := by
          intro hE
          have hmem : f ∈ occursFiles hash (hash f.content) (zipXmlFiles z) := by
            unfold occursFiles
            exact List.mem_filter.2 ⟨hf, by simp⟩
          rw [hE] at hmem
          exact absurd hmem (List.not_mem_nil f)
        obtain ⟨a, b, ha, hb⟩ := exists_head?_getLast? _ hne
        obtain ⟨idp, hidp, _⟩ := lookupXml_fold_some hash hashText r1 z
          wfCheck wf (zipXmlFiles z) (dbAfterNew db0 r1 z) (hash f.content)
          a b ha hb
        have hs1lk : lookupXmlReceipt
            (importZip hash hashText r1 z xml_enabled wfCheck wf db0).1
            (hash f.content)
            = some (xmlRowClosed hashText r1 z wfCheck wf (hash f.content)
                idp (lookupXmlReceipt (dbAfterNew db0 r1 z) (hash f.content))
                a b) := by
          rw [hs1, if_pos hc]
          unfold process_xmls_in_zip
          exact hidp
        show (lookupXmlReceipt
            (importZip hash hashText r1 z xml_enabled wfCheck wf db0).1
            (hash f.content)).isSome = true
        rw [hs1lk]
        rfl
      rw [hs2, if_pos hc]
      unfold process_xmls_in_zip
      rw [xmlReceipts_length_fold hash hashText r2 z wfCheck wf
        (zipXmlFiles z) _ hpres]
      rfl
    · rw [hs2, if_neg hc]
      rfl
  · have hzrun2 : (importZip hash hashText r2 z xml_enabled wfCheck wf
        (importZip hash hashText r1 z xml_enabled wfCheck wf db0).1).1.zipRuns
        = (importZip hash hashText r1 z xml_enabled wfCheck wf db0).1.zipRuns
          ++ [zipRunRow r2
              (zipReceiptNew db0.nextZipReceiptId r1 z).zip_receipt_id
              z.zipSha "SEEN"] := by
      rw [hs2]
      by_cases hc : (xml_enabled && ((importSc z).structure_status == "OK"))
          = true
      · rw [if_pos hc]
        unfold process_xmls_in_zip
        rw [(fold_zip_frame hash hashText r2 z wfCheck wf (zipXmlFiles z) _).2.1]
        rfl
      · rw [if_neg hc]
        rfl
    unfold zipRunsFor
    rw [hzrun2, hrun1, List.filter_append, List.filter_append]
    have hnil : db0.zipRuns.filter (fun r => r.zip_sha256 == z.zipSha) = [] := by
      rw [List.filter_eq_nil_iff]
      intro row hrow
      simp [hruns row hrow]
    rw [hnil]
    simp [zipRunRow, zipReceiptNew]

/-- The concrete ZIP of the C2 witness: one XML under one DATA directory,
extraction successful. -/
def zipW : ZipInput :=
  { zipSha := "Z"
    zip_name := "a.zip"
    zip_path := "/input/F1_fac/a.zip"
    facility_folder_name := "F1_fac"
    facility_code := "F1"
    facility_name := "fac"
    dirs := [["DATA"]]
    files := [⟨["DATA", "a.xml"], "xmlbody", 7, "2025-01-01"⟩]
    ext_res := { ok := true } }

/-- The empty database of the C2 witness. -/
def dbEmpty : MediDb :=
  { zipReceipts := [], zipRuns := [], xmlReceipts := [], xmlRuns := [],
    nextZipReceiptId := 1, nextXmlReceiptId := 1 }

/-- C2 witness: the theorem applied to a concrete zip on an empty state
with the identity digests, projecting the same-receipt-id, identical
xml-receipt-at-its-digest and NEW-then-SEEN conclusions. -/
theorem c2_zip_reimport_deterministic_witness :
    (importZip (fun s => s) (fun s => s) 2 zipW true true (fun _ => none)
        (importZip (fun s => s) (fun s => s) 1 zipW true true (fun _ => none)
          dbEmpty).1).2
      = (importZip (fun s => s) (fun s => s) 1 zipW true true (fun _ => none)
          dbEmpty).2 ∧
    (lookupXmlReceipt (importZip (fun s => s) (fun s => s) 2 zipW true true
        (fun _ => none)
        (importZip (fun s => s) (fun s => s) 1 zipW true true (fun _ => none)
          dbEmpty).1).1 "xmlbody").map xmlProj
      = (lookupXmlReceipt (importZip (fun s => s) (fun s => s) 1 zipW true
          true (fun _ => none) dbEmpty).1 "xmlbody").map xmlProj ∧
    (zipRunsFor (importZip (fun s => s) (fun s => s) 2 zipW true true
        (fun _ => none)
        (importZip (fun s => s) (fun s => s) 1 zipW true true (fun _ => none)
          dbEmpty).1).1 "Z").map (fun row => (row.run_id, row.action))
      = [(1, "NEW"), (2, "SEEN")] := by
  obtain ⟨h1, h2, h3, h4⟩ := c2_zip_reimport_deterministic
    (fun s => s) (fun s => s) 1 2 zipW true true (fun _ => none) dbEmpty
    (by decide) (by decide) (by decide) (by decide) (by decide)
  exact ⟨h1, h2 "xmlbody", h4⟩

end Kenshin
